import Mathlib

/-! # AccelByte Vivox voice chat: the voice session orchestrator

A shallow embedding of `FAccelByteVivoxVoiceChat`
(`Source/AccelByteVivox/Private/AccelByteVivoxVoiceChat.cpp`, the
`VIVOX_AVAILABLE` build) and theorems about it.

Every member function becomes a function from a `State` (the private data
members of the class) to the state it leaves and the list of effects it
produced, in program order.  Effects are the broadcasts on the public
delegates, the requests sent to the token service and the calls made on the
Vivox SDK objects.  Values the code receives from outside (the error code a
SDK call returns, the delegate handle a subscription returns, the settings
object) are explicit arguments.
-/

namespace AccelByteVivox

/-! ## Engine containers: `FString` keys and `TMap` -/

/-- Case folding of a string, the normal form under which the engine compares
and hashes `FString` keys (`FString::operator==` ignores case). -/
def FString.fold (s : String) : List Char := s.data.map Char.toLower

/-- Equality of two `FString` values as `operator==` decides it. -/
def FString.Equals (a b : String) : Bool := decide (FString.fold a = FString.fold b)

/-- The test `FString::IsEmpty`. -/
def FString.IsEmpty (s : String) : Bool := s.data.isEmpty

/-- A `TMap<FString, V>`: the pairs in iteration order.  Keys are compared with
`FString.Equals`. -/
abbrev TMap (V : Type) := List (String × V)

namespace TMap

variable {V : Type}

/-- The value stored under a key (`TMap::Find`), `none` for a null result. -/
def Find : TMap V → String → Option V
  | [], _ => none
  | (k0, v) :: rest, k => if FString.Equals k0 k then some v else Find rest k

/-- Membership of a key (`TMap::Contains`). -/
def Contains (m : TMap V) (k : String) : Bool := (Find m k).isSome

/-- Insertion (`TMap::Add`): an existing pair with an equal key is replaced in
its slot, otherwise the pair is appended. -/
def Add : TMap V → String → V → TMap V
  | [], k, v => [(k, v)]
  | (k0, v0) :: rest, k, v =>
    if FString.Equals k0 k then (k, v) :: rest else (k0, v0) :: Add rest k v

/-- Removal of a key (`TMap::Remove`). -/
def Remove (m : TMap V) (k : String) : TMap V :=
  m.filter (fun p => !FString.Equals p.1 k)

/-- The keys in iteration order (`TMap::GetKeys`). -/
def GetKeys (m : TMap V) : List String := m.map Prod.fst

/-- In-place update of the value stored under a key, as done through the
reference `operator[]` returns or the pointer `Find` returns. -/
def Modify : TMap V → String → (V → V) → TMap V
  | [], _, _ => []
  | (k0, v0) :: rest, k, f =>
    if FString.Equals k0 k then (k0, f v0) :: rest else (k0, v0) :: Modify rest k f

end TMap

/-! ## Types of the SDKs the class talks to -/

/-- Error code of the Vivox SDK; `VxErrorSuccess` is zero. -/
abbrev VivoxCoreError := Int

/-- The success code of the Vivox SDK. -/
def VxErrorSuccess : VivoxCoreError := 0

/-- Login state kept by the class (`EVivoxLoginState`). -/
inductive EVivoxLoginState
  | NotLoggedIn
  | LoggingIn
  | LoggedIn
  deriving DecidableEq, Repr

/-- Login state reported by the Vivox login session. -/
inductive LoginState
  | LoggedOut
  | LoggingIn
  | LoggedIn
  | LoggingOut
  deriving DecidableEq, Repr

/-- Connection state reported by a Vivox channel session. -/
inductive ConnectionState
  | Disconnected
  | Connecting
  | Connected
  | Disconnecting
  deriving DecidableEq, Repr

/-- Transmission mode of the Vivox login session. -/
inductive TransmissionMode
  | None
  | Single
  | All
  deriving DecidableEq, Repr

/-- Vivox account identifier built by `AccountId(Issuer, Name, Domain)`. -/
structure AccountId where
  Issuer : String
  Name : String
  Domain : String
  deriving DecidableEq, Repr

/-- Vivox channel identifier built by
`ChannelId(Issuer, Name, Domain, ChannelType::NonPositional)`. -/
structure ChannelId where
  Issuer : String
  Name : String
  Domain : String
  deriving DecidableEq, Repr

/-- An engine delegate handle; it is valid when its id is not zero. -/
structure FDelegateHandle where
  ID : Nat
  deriving DecidableEq, Repr

/-- The test `FDelegateHandle::IsValid`. -/
def FDelegateHandle.IsValid (h : FDelegateHandle) : Bool := h.ID != 0

/-- The settings object `UAccelByteVivoxSettings`. -/
structure UAccelByteVivoxSettings where
  VivoxIssuer : String
  VivoxDomain : String
  VivoxServer : String
  deriving DecidableEq, Repr

/-- Identity of the credential context an `FApiClientPtr` points to. -/
abbrev ApiClient := Nat

/-- Kind of token asked from the token service. -/
inductive TokenRequestType
  | login
  | join
  deriving DecidableEq, Repr

/-- Channel type field of a token request. -/
inductive TokenRequestChannelType
  | unset
  | nonpositional
  deriving DecidableEq, Repr

/-- The request `FAccelByteVivoxAuthServiceGenerateVivoxTokenRequest`; fields the
code does not assign keep their defaults. -/
structure TokenRequest where
  Kind : TokenRequestType
  Username : String
  ChannelId : String
  ChannelType : TokenRequestChannelType
  deriving DecidableEq, Repr

/-! ## Effects -/

/-- Everything a member function does to the outside, in program order. -/
inductive Event
  | OnLoginCompleted (bSuccess : Bool)
  | OnLogoutCompleted
  | OnChannelJoined (ChannelName : String) (bSuccess : Bool)
  | OnChannelLeft (ChannelName : String)
  | OnParticipantAdded (ChannelName ParticipantId DisplayName : String)
  | OnParticipantRemoved (ChannelName ParticipantId : String)
  | OnParticipantTalkingChanged (ChannelName ParticipantId : String) (bIsTalking : Bool)
  | ServiceGenerateVivoxToken (Request : TokenRequest)
  | InitializeClient
  | UninitializeClient
  | GetLoginSession (Account : AccountId)
  | BeginLogin (Session : AccountId) (Server AccessToken : String)
  | LoginStateChangedAdd (Session : AccountId)
  | LoginStateChangedRemove (Session : AccountId) (Handle : FDelegateHandle)
  | SessionLogout (Session : AccountId)
  | GetChannelSession (Channel : ChannelId)
  | ParticipantEventsAdd (Channel : ChannelId)
  | BeginConnect (Channel : ChannelId) (AccessToken : String)
  | ChannelStateChangedAdd (Channel : ChannelId)
  | ChannelStateChangedRemove (Channel : ChannelId) (Handle : FDelegateHandle)
  | DeleteChannelSession (Channel : ChannelId)
  | Disconnect (Channel : ChannelId)
  | SetTransmissionMode (Mode : TransmissionMode) (Channel : Option ChannelId)
  | SetMuted (bMuted : Bool)
  | BeginSetLocalMute (Channel : ChannelId) (PlayerId : String) (bMuted : Bool)
  deriving DecidableEq, Repr

/-- Broadcasts on the public delegates of the class. -/
def Event.isNotification : Event → Bool
  | .OnLoginCompleted _ => true
  | .OnLogoutCompleted => true
  | .OnChannelJoined _ _ => true
  | .OnChannelLeft _ => true
  | .OnParticipantAdded _ _ _ => true
  | .OnParticipantRemoved _ _ => true
  | .OnParticipantTalkingChanged _ _ _ => true
  | _ => false

/-- Requests sent to the token service. -/
def Event.isTokenRequest : Event → Bool
  | .ServiceGenerateVivoxToken _ => true
  | _ => false

/-- Calls made on the Vivox SDK objects. -/
def Event.isBackendCall (e : Event) : Bool := !e.isNotification && !e.isTokenRequest

/-- Join-kind token requests for one channel name. -/
def Event.isJoinTokenRequestFor (X : String) : Event → Bool
  | .ServiceGenerateVivoxToken r => decide (r.Kind = TokenRequestType.join ∧ r.ChannelId = X)
  | _ => false

/-- Disconnect calls on channel sessions. -/
def Event.isDisconnect : Event → Bool
  | .Disconnect _ => true
  | _ => false

/-- The broadcasts among a list of effects. -/
def notifications (evs : List Event) : List Event := evs.filter Event.isNotification

/-- The token requests among a list of effects. -/
def tokenRequests (evs : List Event) : List Event := evs.filter Event.isTokenRequest

/-- The SDK calls among a list of effects. -/
def backendCalls (evs : List Event) : List Event := evs.filter Event.isBackendCall

/-- The disconnect calls among a list of effects. -/
def disconnects (evs : List Event) : List Event := evs.filter Event.isDisconnect

/-! ## State -/

/-- The data members of `FAccelByteVivoxVoiceChat`.  A raw pointer is an
`Option` (`none` is the null pointer); the pointer to the SDK client, of which
there is one, is a flag. -/
structure State where
  CurrentLoginState : EVivoxLoginState
  Username : String
  ApiClientPtr : Option ApiClient
  bLocalMuted : Bool
  VivoxVoiceClient : Bool
  VivoxLoginSession : Option AccountId
  VivoxAccountId : AccountId
  ChannelSessions : TMap (Option ChannelId)
  ParticipantTalkingState : TMap (TMap Bool)
  LoginSessionStateChangedHandle : FDelegateHandle
  ChannelStateChangedHandles : TMap FDelegateHandle
  deriving DecidableEq, Repr

/-- The state a freshly constructed object is in. -/
def State.init : State where
  CurrentLoginState := .NotLoggedIn
  Username := ""
  ApiClientPtr := none
  bLocalMuted := false
  VivoxVoiceClient := false
  VivoxLoginSession := none
  VivoxAccountId := ⟨"", "", ""⟩
  ChannelSessions := []
  ParticipantTalkingState := []
  LoginSessionStateChangedHandle := ⟨0⟩
  ChannelStateChangedHandles := []

/-! ## Member functions -/

/-- What a member function returns: the state it leaves and its effects. -/
abbrev Result := State × List Event

/-- The member `Initialize`; `Error` is what the SDK client returns from its own
`Initialize`.  The module reference is never null. -/
def Initialize (s : State) (Error : VivoxCoreError) : Result :=
  if s.VivoxVoiceClient then (s, [])
  else if Error ≠ VxErrorSuccess then
    ({ s with VivoxVoiceClient := false }, [Event.InitializeClient])
  else ({ s with VivoxVoiceClient := true }, [Event.InitializeClient])

/-- The member `CleanUpChannelSession`. -/
def CleanUpChannelSession (s : State) (ChannelName : String) : Result :=
  let r1 : TMap FDelegateHandle × List Event :=
    match TMap.Find s.ChannelStateChangedHandles ChannelName with
    | some StateHandle =>
      (TMap.Remove s.ChannelStateChangedHandles ChannelName,
        match TMap.Find s.ChannelSessions ChannelName with
        | some (some c) => [Event.ChannelStateChangedRemove c StateHandle]
        | _ => [])
    | none => (s.ChannelStateChangedHandles, [])
  let e2 : List Event :=
    match TMap.Find s.ChannelSessions ChannelName, s.VivoxLoginSession with
    | some (some c), some _ => [Event.DeleteChannelSession c]
    | _, _ => []
  ({ s with
      ChannelStateChangedHandles := r1.1
      ChannelSessions := TMap.Remove s.ChannelSessions ChannelName
      ParticipantTalkingState := TMap.Remove s.ParticipantTalkingState ChannelName },
    r1.2 ++ e2)

/-- The member `LeaveAllChannels`. -/
def LeaveAllChannels (s : State) : Result :=
  let ChannelNames := TMap.GetKeys s.ChannelSessions
  let evs := ChannelNames.filterMap (fun ChannelName =>
    match TMap.Find s.ChannelSessions ChannelName with
    | some (some c) => some (Event.Disconnect c)
    | _ => none)
  ({ s with
      ChannelSessions := []
      ChannelStateChangedHandles := []
      ParticipantTalkingState := [] },
    evs)

/-- The member `Logout`. -/
def Logout (s : State) : Result :=
  match s.VivoxLoginSession with
  | none => (s, [])
  | some sess =>
    if s.CurrentLoginState = .NotLoggedIn then (s, [])
    else
      let r1 := LeaveAllChannels s
      let r2 : Result :=
        if r1.1.LoginSessionStateChangedHandle.IsValid then
          ({ r1.1 with LoginSessionStateChangedHandle := ⟨0⟩ },
            [Event.LoginStateChangedRemove sess r1.1.LoginSessionStateChangedHandle])
        else (r1.1, [])
      ({ r2.1 with
          VivoxLoginSession := none
          CurrentLoginState := .NotLoggedIn
          ApiClientPtr := none },
        r1.2 ++ r2.2 ++ [Event.SessionLogout sess, Event.OnLogoutCompleted])

/-- The member `Uninitialize`. -/
def Uninitialize (s : State) : Result :=
  if s.VivoxVoiceClient = false then (s, [])
  else
    let r : Result :=
      if s.CurrentLoginState ≠ .NotLoggedIn then
        let r1 := LeaveAllChannels s
        let r2 := Logout r1.1
        (r2.1, r1.2 ++ r2.2)
      else (s, [])
    ({ r.1 with VivoxVoiceClient := false }, r.2 ++ [Event.UninitializeClient])

/-- The member `Login`. -/
def Login (s : State) (ApiClient : Option ApiClient) (InUsername : String)
    (Settings : UAccelByteVivoxSettings) : Result :=
  if s.VivoxVoiceClient = false then (s, [Event.OnLoginCompleted false])
  else if s.CurrentLoginState ≠ .NotLoggedIn then (s, [Event.OnLoginCompleted false])
  else
    match ApiClient with
    | none => (s, [Event.OnLoginCompleted false])
    | some c =>
      let acct : AccountId := ⟨Settings.VivoxIssuer, InUsername, Settings.VivoxDomain⟩
      ({ s with
          ApiClientPtr := some c
          Username := InUsername
          CurrentLoginState := .LoggingIn
          VivoxAccountId := acct
          VivoxLoginSession := some acct },
        [Event.GetLoginSession acct,
         Event.ServiceGenerateVivoxToken ⟨.login, InUsername, "", .unset⟩])

/-- The error handler `Login` passes to the token service. -/
def Login_OnError (s : State) : Result :=
  ({ s with CurrentLoginState := .NotLoggedIn }, [Event.OnLoginCompleted false])

/-- The member `HandleLoginTokenResponse`; `Error` is what `BeginLogin`
returns. -/
def HandleLoginTokenResponse (s : State) (AccessToken _Uri : String)
    (Settings : UAccelByteVivoxSettings) (Error : VivoxCoreError) : Result :=
  match s.VivoxLoginSession with
  | none => ({ s with CurrentLoginState := .NotLoggedIn }, [Event.OnLoginCompleted false])
  | some sess =>
    let LoginServerUri := Settings.VivoxServer
    if FString.IsEmpty LoginServerUri then
      ({ s with CurrentLoginState := .NotLoggedIn }, [Event.OnLoginCompleted false])
    else if Error ≠ VxErrorSuccess then
      ({ s with CurrentLoginState := .NotLoggedIn },
        [Event.BeginLogin sess LoginServerUri AccessToken, Event.OnLoginCompleted false])
    else (s, [Event.BeginLogin sess LoginServerUri AccessToken])

/-- The member `HandleVivoxLoginCompleted`; `NewHandle` is what the
subscription returns.  On success the code assigns `LoggedIn` and then goes
through `VivoxLoginSession` without a null test: with a null session the call
has no defined result, which is `none` here. -/
def HandleVivoxLoginCompleted (s : State) (Error : VivoxCoreError)
    (NewHandle : FDelegateHandle) : Option Result :=
  if Error = VxErrorSuccess then
    match s.VivoxLoginSession with
    | none => none
    | some sess =>
      some ({ s with
              CurrentLoginState := .LoggedIn
              LoginSessionStateChangedHandle := NewHandle },
        [Event.LoginStateChangedAdd sess, Event.OnLoginCompleted true])
  else
    some ({ s with CurrentLoginState := .NotLoggedIn }, [Event.OnLoginCompleted false])

/-- The member `HandleLoginSessionStateChanged`. -/
def HandleLoginSessionStateChanged (s : State) (St : LoginState) : Result :=
  if St = .LoggedOut then
    ({ s with CurrentLoginState := .NotLoggedIn, VivoxLoginSession := none },
      [Event.OnLogoutCompleted])
  else (s, [])

/-- The member `IsLoggedIn`. -/
def IsLoggedIn (s : State) : Bool := decide (s.CurrentLoginState = .LoggedIn)

/-- The member `JoinChannel`. -/
def JoinChannel (s : State) (ChannelName : String) : Result :=
  if s.CurrentLoginState ≠ .LoggedIn then (s, [Event.OnChannelJoined ChannelName false])
  else if TMap.Contains s.ChannelSessions ChannelName then
    (s, [Event.OnChannelJoined ChannelName true])
  else
    match s.ApiClientPtr with
    | none => (s, [Event.OnChannelJoined ChannelName false])
    | some _ =>
      (s, [Event.ServiceGenerateVivoxToken ⟨.join, s.Username, ChannelName, .nonpositional⟩])

/-- The error handler `JoinChannel` passes to the token service. -/
def JoinChannel_OnError (s : State) (ChannelName : String) : Result :=
  (s, [Event.OnChannelJoined ChannelName false])

/-- The member `HandleJoinTokenResponse`; `Error` is what `BeginConnect`
returns. -/
def HandleJoinTokenResponse (s : State) (ChannelName AccessToken Uri : String)
    (Settings : UAccelByteVivoxSettings) (Error : VivoxCoreError) : Result :=
  match s.VivoxLoginSession with
  | none => (s, [Event.OnChannelJoined ChannelName false])
  | some _ =>
    if FString.IsEmpty Uri then (s, [Event.OnChannelJoined ChannelName false])
    else
      let VivoxChannelId : ChannelId := ⟨Settings.VivoxIssuer, ChannelName, Settings.VivoxDomain⟩
      let s1 : State :=
        { s with ChannelSessions := TMap.Add s.ChannelSessions ChannelName (some VivoxChannelId) }
      let evs : List Event :=
        [Event.GetChannelSession VivoxChannelId, Event.ParticipantEventsAdd VivoxChannelId,
         Event.BeginConnect VivoxChannelId AccessToken]
      if Error ≠ VxErrorSuccess then
        let r := CleanUpChannelSession s1 ChannelName
        (r.1, evs ++ r.2 ++ [Event.OnChannelJoined ChannelName false])
      else (s1, evs)

/-- The member `HandleChannelConnectCompleted`; `NewHandle` is what the
subscription returns. -/
def HandleChannelConnectCompleted (s : State) (ChannelName : String)
    (Error : VivoxCoreError) (NewHandle : FDelegateHandle) : Result :=
  if Error = VxErrorSuccess then
    match TMap.Find s.ChannelSessions ChannelName with
    | some (some c) =>
      ({ s with
          ChannelStateChangedHandles :=
            TMap.Add s.ChannelStateChangedHandles ChannelName NewHandle },
        [Event.ChannelStateChangedAdd c, Event.OnChannelJoined ChannelName true])
    | _ => (s, [Event.OnChannelJoined ChannelName true])
  else
    let r := CleanUpChannelSession s ChannelName
    (r.1, r.2 ++ [Event.OnChannelJoined ChannelName false])

/-- The member `HandleChannelStateChanged`. -/
def HandleChannelStateChanged (s : State) (ChannelName : String)
    (St : ConnectionState) : Result :=
  if St = .Disconnected then
    let r := CleanUpChannelSession s ChannelName
    (r.1, r.2 ++ [Event.OnChannelLeft ChannelName])
  else (s, [])

/-- The member `LeaveChannel`. -/
def LeaveChannel (s : State) (ChannelName : String) : Result :=
  match TMap.Find s.ChannelSessions ChannelName with
  | some (some c) => (s, [Event.Disconnect c])
  | _ => (s, [])

/-- The member `IsInChannel`. -/
def IsInChannel (s : State) (ChannelName : String) : Bool :=
  TMap.Contains s.ChannelSessions ChannelName

/-- The member `SetTransmissionChannel`. -/
def SetTransmissionChannel (s : State) (ChannelName : String) : Result :=
  match s.VivoxLoginSession with
  | none => (s, [])
  | some _ =>
    match TMap.Find s.ChannelSessions ChannelName with
    | some (some c) => (s, [Event.SetTransmissionMode .Single (some c)])
    | _ => (s, [])

/-- The member `SetTransmissionToAll`. -/
def SetTransmissionToAll (s : State) : Result :=
  match s.VivoxLoginSession with
  | none => (s, [])
  | some _ => (s, [Event.SetTransmissionMode .All none])

/-- The member `SetTransmissionToNone`. -/
def SetTransmissionToNone (s : State) : Result :=
  match s.VivoxLoginSession with
  | none => (s, [])
  | some _ => (s, [Event.SetTransmissionMode .None none])

/-- The member `SetLocalMute`. -/
def SetLocalMute (s : State) (bMuted : Bool) : Result :=
  if s.VivoxVoiceClient = false then (s, [])
  else ({ s with bLocalMuted := bMuted }, [Event.SetMuted bMuted])

/-- The member `IsLocalMuted`. -/
def IsLocalMuted (s : State) : Bool := s.bLocalMuted

/-- The member `SetPlayerMute`; `bFound` tells whether the channel session
knows the participant. -/
def SetPlayerMute (s : State) (ChannelName PlayerId : String) (bMuted bFound : Bool) :
    Result :=
  match TMap.Find s.ChannelSessions ChannelName with
  | some (some c) =>
    if bFound then (s, [Event.BeginSetLocalMute c PlayerId bMuted]) else (s, [])
  | _ => (s, [])

/-- The member `IsPlayerMuted`; `LocalMute` is the flag of the participant when
the channel session knows it. -/
def IsPlayerMuted (s : State) (ChannelName : String) (LocalMute : Option Bool) : Bool :=
  match TMap.Find s.ChannelSessions ChannelName with
  | some (some _) =>
    match LocalMute with
    | some b => b
    | none => false
  | _ => false

/-- The member `HandleParticipantAdded`. -/
def HandleParticipantAdded (s : State) (ChannelName ParticipantId DisplayName : String) :
    Result :=
  let t1 : TMap (TMap Bool) :=
    if !TMap.Contains s.ParticipantTalkingState ChannelName then
      TMap.Add s.ParticipantTalkingState ChannelName []
    else s.ParticipantTalkingState
  let t2 := TMap.Modify t1 ChannelName (fun ps => TMap.Add ps ParticipantId false)
  ({ s with ParticipantTalkingState := t2 },
    [Event.OnParticipantAdded ChannelName ParticipantId DisplayName])

/-- The member `HandleParticipantRemoved`. -/
def HandleParticipantRemoved (s : State) (ChannelName ParticipantId : String) : Result :=
  let t1 : TMap (TMap Bool) :=
    if TMap.Contains s.ParticipantTalkingState ChannelName then
      TMap.Modify s.ParticipantTalkingState ChannelName
        (fun ps => TMap.Remove ps ParticipantId)
    else s.ParticipantTalkingState
  ({ s with ParticipantTalkingState := t1 },
    [Event.OnParticipantRemoved ChannelName ParticipantId])

/-- The member `HandleParticipantUpdated`. -/
def HandleParticipantUpdated (s : State) (ChannelName ParticipantId : String)
    (bIsTalking : Bool) : Result :=
  match TMap.Find s.ParticipantTalkingState ChannelName with
  | none => (s, [])
  | some ChannelParticipants =>
    match TMap.Find ChannelParticipants ParticipantId with
    | none => (s, [])
    | some PreviousTalkingState =>
      if PreviousTalkingState ≠ bIsTalking then
        ({ s with
            ParticipantTalkingState :=
              TMap.Modify s.ParticipantTalkingState ChannelName
                (fun ps => TMap.Modify ps ParticipantId (fun _ => bIsTalking)) },
          [Event.OnParticipantTalkingChanged ChannelName ParticipantId bIsTalking])
      else (s, [])

/-! ## The step relation -/

/-- One call into the object: a public operation, or a callback delivered by the
token service or the Vivox SDK, with the values that come from outside. -/
inductive Action
  | Initialize (Error : VivoxCoreError)
  | Uninitialize
  | Login (ApiClient : Option ApiClient) (InUsername : String)
      (Settings : UAccelByteVivoxSettings)
  | LoginTokenError
  | LoginTokenResponse (AccessToken Uri : String) (Settings : UAccelByteVivoxSettings)
      (Error : VivoxCoreError)
  | VivoxLoginCompleted (Error : VivoxCoreError) (NewHandle : FDelegateHandle)
  | LoginSessionStateChanged (St : LoginState)
  | Logout
  | JoinChannel (ChannelName : String)
  | JoinTokenError (ChannelName : String)
  | JoinTokenResponse (ChannelName AccessToken Uri : String)
      (Settings : UAccelByteVivoxSettings) (Error : VivoxCoreError)
  | ChannelConnectCompleted (ChannelName : String) (Error : VivoxCoreError)
      (NewHandle : FDelegateHandle)
  | ChannelStateChanged (ChannelName : String) (St : ConnectionState)
  | LeaveChannel (ChannelName : String)
  | LeaveAllChannels
  | SetTransmissionChannel (ChannelName : String)
  | SetTransmissionToAll
  | SetTransmissionToNone
  | SetLocalMute (bMuted : Bool)
  | SetPlayerMute (ChannelName PlayerId : String) (bMuted bFound : Bool)
  | ParticipantAdded (ChannelName ParticipantId DisplayName : String)
  | ParticipantRemoved (ChannelName ParticipantId : String)
  | ParticipantUpdated (ChannelName ParticipantId : String) (bIsTalking : Bool)
  deriving DecidableEq, Repr

/-- The effect of one call; `none` when the call has no defined result. -/
def step (s : State) : Action → Option Result
  | .Initialize e => some (Initialize s e)
  | Action.Uninitialize => some <| Uninitialize s
  | .Login a u cfg => some (Login s a u cfg)
  | .LoginTokenError => some (Login_OnError s)
  | .LoginTokenResponse t u cfg e => some (HandleLoginTokenResponse s t u cfg e)
  | .VivoxLoginCompleted e h => HandleVivoxLoginCompleted s e h
  | .LoginSessionStateChanged st => some (HandleLoginSessionStateChanged s st)
  | .Logout => some (Logout s)
  | .JoinChannel c => some (JoinChannel s c)
  | .JoinTokenError c => some (JoinChannel_OnError s c)
  | .JoinTokenResponse c t u cfg e => some (HandleJoinTokenResponse s c t u cfg e)
  | .ChannelConnectCompleted c e h => some (HandleChannelConnectCompleted s c e h)
  | .ChannelStateChanged c st => some (HandleChannelStateChanged s c st)
  | .LeaveChannel c => some (LeaveChannel s c)
  | .LeaveAllChannels => some (LeaveAllChannels s)
  | .SetTransmissionChannel c => some (SetTransmissionChannel s c)
  | .SetTransmissionToAll => some (SetTransmissionToAll s)
  | .SetTransmissionToNone => some (SetTransmissionToNone s)
  | .SetLocalMute b => some (SetLocalMute s b)
  | .SetPlayerMute c p b f => some (SetPlayerMute s c p b f)
  | .ParticipantAdded c p d => some (HandleParticipantAdded s c p d)
  | .ParticipantRemoved c p => some (HandleParticipantRemoved s c p)
  | .ParticipantUpdated c p b => some (HandleParticipantUpdated s c p b)

/-- A sequence of calls, from a given state: the state reached and all effects. -/
def run : State → List Action → Option Result
  | s, [] => some (s, [])
  | s, a :: rest =>
    match step s a with
    | none => none
    | some r1 =>
      match run r1.1 rest with
      | none => none
      | some r2 => some (r2.1, r1.2 ++ r2.2)

/-- The states the object can be in: those some sequence of calls leads to from
the freshly constructed object. -/
def Reachable (s : State) : Prop := ∃ acts evs, run State.init acts = some (s, evs)


/-! ## Concrete runs used as examples -/

/-- Settings used in the examples. -/
def demoSettings : UAccelByteVivoxSettings := ⟨"issuer", "vivox.example", "https://vivox.example"⟩

/-- Calls that log the user "alice" in. -/
def loginCalls : List Action :=
  [.Initialize 0, .Login (some 1) "alice" demoSettings,
   .LoginTokenResponse "login-token" "uri" demoSettings 0, .VivoxLoginCompleted 0 ⟨7⟩]

/-- Calls that join one channel, up to the completed connect. -/
def joinCalls (X : String) (h : Nat) : List Action :=
  [.JoinChannel X, .JoinTokenResponse X "join-token" "uri" demoSettings 0,
   .ChannelConnectCompleted X 0 ⟨h⟩]

/-- The state after `loginCalls`: logged in, no channel. -/
def stateLoggedIn : State where
  CurrentLoginState := .LoggedIn
  Username := "alice"
  ApiClientPtr := some 1
  bLocalMuted := false
  VivoxVoiceClient := true
  VivoxLoginSession := some ⟨"issuer", "alice", "vivox.example"⟩
  VivoxAccountId := ⟨"issuer", "alice", "vivox.example"⟩
  ChannelSessions := []
  ParticipantTalkingState := []
  LoginSessionStateChangedHandle := ⟨7⟩
  ChannelStateChangedHandles := []

/-- The state after `loginCalls`, a completed join of "party-42" and the arrival
of the participant "bob". -/
def stateInChannel : State :=
  { stateLoggedIn with
    ChannelSessions := [("party-42", some ⟨"issuer", "party-42", "vivox.example"⟩)]
    ParticipantTalkingState := [("party-42", [("bob", false)])]
    ChannelStateChangedHandles := [("party-42", ⟨8⟩)] }

/-- The state after `loginCalls` and completed joins of "party-42" and
"squad-7". -/
def stateTwoChannels : State :=
  { stateLoggedIn with
    ChannelSessions := [("party-42", some ⟨"issuer", "party-42", "vivox.example"⟩),
      ("squad-7", some ⟨"issuer", "squad-7", "vivox.example"⟩)]
    ChannelStateChangedHandles := [("party-42", ⟨8⟩), ("squad-7", ⟨9⟩)] }

/-- The state after an accepted `Login`, before the token service answers. -/
def stateLoggingIn : State :=
  { stateLoggedIn with
    CurrentLoginState := .LoggingIn
    LoginSessionStateChangedHandle := ⟨0⟩ }

/-- The join-kind token requests for one channel among a list of effects. -/
def joinTokenRequestsFor (X : String) (evs : List Event) : List Event :=
  evs.filter (Event.isJoinTokenRequestFor X)

/-- Calls in which the Vivox login session reports an involuntary logout while
"party-42" is joined: log in, join the channel up to the completed connect,
then the state-changed event `LoggedOut` of the subscription made at login. -/
def involuntaryLogoutCalls : List Action :=
  loginCalls ++ joinCalls "party-42" 8 ++ [Action.LoginSessionStateChanged .LoggedOut]

/-- Calls after which a login completion arrives while the login state is
`NotLoggedIn`: a first login whose `BeginLogin` is accepted, a `Logout` while
its completion is pending, then a second `Login` whose token request fails.
The completion of the first `BeginLogin` is still to be delivered. -/
def lateCompletionCalls : List Action :=
  [.Initialize 0, .Login (some 1) "alice" demoSettings,
   .LoginTokenResponse "login-token" "uri" demoSettings 0, .Logout,
   .Login (some 1) "alice" demoSettings, .LoginTokenError]

/-- Calls after which a login completion arrives right after `Logout`. -/
def logoutWhileLoggingInCalls : List Action :=
  [.Initialize 0, .Login (some 1) "alice" demoSettings,
   .LoginTokenResponse "login-token" "uri" demoSettings 0, .Logout]

/-- The talking flag stored for a participant of a channel, read the way
`HandleParticipantUpdated` reads it: the table of the channel, then the flag of
the participant; `none` when either lookup returns null. -/
def talkingFlag (s : State) (ChannelName ParticipantId : String) : Option Bool :=
  (TMap.Find s.ParticipantTalkingState ChannelName).bind
    (fun ChannelParticipants => TMap.Find ChannelParticipants ParticipantId)

/-- No entry for a channel name in the channel map, the handle map or the
participant talking tables. -/
def HasNoEntry (s : State) (X : String) : Prop :=
  TMap.Contains s.ChannelSessions X = false ∧
  TMap.Contains s.ChannelStateChangedHandles X = false ∧
  TMap.Contains s.ParticipantTalkingState X = false

/-- Every name with a state-changed handle has an entry in the channel map. -/
def HandlesTracked (s : State) : Prop :=
  ∀ k : String, TMap.Contains s.ChannelStateChangedHandles k = true →
    TMap.Contains s.ChannelSessions k = true

/-- The state after `loginCalls`, `JoinChannel "party-42"` and its token
response, before the connect completion is delivered. -/
def stateConnecting : State :=
  { stateLoggedIn with
    ChannelSessions := [("party-42", some ⟨"issuer", "party-42", "vivox.example"⟩)] }

/-- The state after `loginCalls`, a completed join of "party-42",
`LeaveAllChannels`, and a participant-added event the channel session (still
disconnecting, its listeners still bound) delivers afterwards. -/
def stateStaleTable : State :=
  { stateLoggedIn with
    ParticipantTalkingState := [("party-42", [("bob", false)])] }

/-- Calls of a join of "party-42" that is cut short by `Logout` while the token
request is in flight. -/
def joinThenLogoutCalls : List Action :=
  loginCalls ++ [Action.JoinChannel "party-42", Action.Logout]

/-- Calls of a join of "party-42" that is cut short by `LeaveAllChannels` while
the token request is in flight. -/
def joinThenLeaveAllCalls : List Action :=
  loginCalls ++ [Action.JoinChannel "party-42", Action.LeaveAllChannels]

/-- The states in which the pointers the code goes through are consistent: a
logged-in object has its login session, a login session comes with its
credential context, and the channel map holds non-null sessions under keys that
are pairwise different. -/
structure WellFormed (s : State) : Prop where
  session_of_loggedIn : s.CurrentLoginState = .LoggedIn → s.VivoxLoginSession.isSome = true
  api_of_session : s.VivoxLoginSession.isSome = true → s.ApiClientPtr.isSome = true
  sessions_nonnull : ∀ p ∈ s.ChannelSessions, p.2.isSome = true
  keys_distinct : s.ChannelSessions.Pairwise (fun p q => FString.Equals p.1 q.1 = false)

/-! ## Lemmas on `FString` and `TMap` -/

theorem FString.Equals_refl (a : String) : FString.Equals a a = true := by
  simp [FString.Equals]

theorem FString.Equals_symm {a b : String} (h : FString.Equals a b = true) :
    FString.Equals b a = true := by
  simp only [FString.Equals, decide_eq_true_eq] at h ⊢
  exact h.symm

theorem FString.Equals_trans {a b c : String} (h1 : FString.Equals a b = true)
    (h2 : FString.Equals b c = true) : FString.Equals a c = true := by
  simp only [FString.Equals, decide_eq_true_eq] at h1 h2 ⊢
  exact h1.trans h2

namespace TMap

variable {V : Type}

theorem Find_Remove_self (m : TMap V) (k : String) : Find (Remove m k) k = none := by
  induction m with
  | nil => rfl
  | cons p rest ih =>
    obtain ⟨k0, v0⟩ := p
    by_cases h : FString.Equals k0 k = true
    · simpa [Remove, List.filter_cons, h] using ih
    · simp only [Remove, List.filter_cons, h, Bool.not_false, if_true]
      simp only [Bool.not_eq_true] at h
      simp only [Find, h]
      simpa [Remove] using ih

theorem Contains_Remove_self (m : TMap V) (k : String) : Contains (Remove m k) k = false := by
  simp [Contains, Find_Remove_self]

theorem mem_Remove {m : TMap V} {k : String} {p : String × V} (h : p ∈ Remove m k) : p ∈ m :=
  (List.mem_filter.mp h).1

theorem mem_Add {m : TMap V} {k : String} {v : V} {p : String × V} (h : p ∈ Add m k v) :
    p ∈ m ∨ p = (k, v) := by
  induction m with
  | nil => simpa [Add] using h
  | cons q rest ih =>
    obtain ⟨k0, v0⟩ := q
    cases hk : FString.Equals k0 k with
    | true =>
      simp only [Add, hk, if_true, List.mem_cons] at h
      rcases h with h1 | h1
      · exact Or.inr h1
      · exact Or.inl (List.mem_cons_of_mem _ h1)
    | false =>
      simp only [Add, hk, List.mem_cons, Bool.false_eq_true, if_false] at h
      rcases h with h1 | h1
      · exact Or.inl (by rw [h1]; exact List.mem_cons_self _ _)
      · rcases ih h1 with h2 | h2
        · exact Or.inl (List.mem_cons_of_mem _ h2)
        · exact Or.inr h2

theorem Remove_keys_distinct {m : TMap V} (k : String)
    (h : m.Pairwise (fun p q => FString.Equals p.1 q.1 = false)) :
    (Remove m k).Pairwise (fun p q => FString.Equals p.1 q.1 = false) :=
  List.Pairwise.filter _ h

theorem Add_keys_distinct {m : TMap V} (k : String) (v : V)
    (h : m.Pairwise (fun p q => FString.Equals p.1 q.1 = false)) :
    (Add m k v).Pairwise (fun p q => FString.Equals p.1 q.1 = false) := by
  induction m with
  | nil => simp [Add]
  | cons q rest ih =>
    obtain ⟨k0, v0⟩ := q
    rw [List.pairwise_cons] at h
    cases hk : FString.Equals k0 k with
    | true =>
      simp only [Add, hk, if_true]
      rw [List.pairwise_cons]
      refine ⟨?_, h.2⟩
      intro a ha
      have h0 := h.1 a ha
      cases hka : FString.Equals k a.1 with
      | false => rfl
      | true =>
        have := FString.Equals_trans hk hka
        simp [this] at h0
    | false =>
      simp only [Add, hk, Bool.false_eq_true, if_false]
      rw [List.pairwise_cons]
      refine ⟨?_, ih h.2⟩
      intro a ha
      rcases mem_Add ha with h1 | h1
      · exact h.1 a h1
      · subst h1
        exact hk

theorem Find_of_mem {m : TMap V} (h : m.Pairwise (fun p q => FString.Equals p.1 q.1 = false))
    {p : String × V} (hp : p ∈ m) : Find m p.1 = some p.2 := by
  induction m with
  | nil => simp at hp
  | cons q rest ih =>
    obtain ⟨k0, v0⟩ := q
    rw [List.pairwise_cons] at h
    rcases List.mem_cons.mp hp with h1 | h1
    · subst h1
      simp [Find, FString.Equals_refl]
    · have := h.1 p h1
      simp only [Find, this]
      exact ih h.2 h1

theorem mem_of_Find {m : TMap V} {k : String} {v : V} (h : Find m k = some v) :
    ∃ k0, (k0, v) ∈ m ∧ FString.Equals k0 k = true := by
  induction m with
  | nil => simp [Find] at h
  | cons q rest ih =>
    obtain ⟨k0, v0⟩ := q
    by_cases hk : FString.Equals k0 k = true
    · simp only [Find, hk, if_true, Option.some.injEq] at h
      exact ⟨k0, by simp [h], hk⟩
    · simp only [Find, hk] at h
      obtain ⟨k1, h1, h2⟩ := ih h
      exact ⟨k1, List.mem_cons_of_mem _ h1, h2⟩

end TMap


/-! ## Well-formedness is an invariant of the step relation -/

theorem WellFormed_init : WellFormed State.init :=
  ⟨by simp [State.init], by simp [State.init], by simp [State.init], by simp [State.init]⟩

/-- Well-formedness only reads four members. -/
theorem WellFormed_congr {s t : State} (h : WellFormed s)
    (h1 : t.CurrentLoginState = s.CurrentLoginState)
    (h2 : t.VivoxLoginSession = s.VivoxLoginSession)
    (h3 : t.ApiClientPtr = s.ApiClientPtr)
    (h4 : t.ChannelSessions = s.ChannelSessions) : WellFormed t :=
  ⟨by rw [h1, h2]; exact h.1, by rw [h2, h3]; exact h.2, by rw [h4]; exact h.3,
    by rw [h4]; exact h.4⟩

theorem WellFormed_CleanUpChannelSession {s : State} (h : WellFormed s) (c : String) :
    WellFormed (CleanUpChannelSession s c).1 :=
  ⟨h.1, h.2, fun p hp => h.3 p (TMap.mem_Remove hp), TMap.Remove_keys_distinct c h.4⟩

theorem WellFormed_LeaveAllChannels {s : State} (h : WellFormed s) :
    WellFormed (LeaveAllChannels s).1 :=
  ⟨h.1, h.2, by simp [LeaveAllChannels], by simp [LeaveAllChannels]⟩

theorem WellFormed_Logout {s : State} (h : WellFormed s) : WellFormed (Logout s).1 := by
  unfold Logout
  split
  · exact h
  · split
    · exact h
    · by_cases hv : s.LoginSessionStateChangedHandle.IsValid = true
      · exact ⟨by simp, by simp, by simp [LeaveAllChannels, hv], by simp [LeaveAllChannels, hv]⟩
      · exact ⟨by simp, by simp, by simp [LeaveAllChannels, hv], by simp [LeaveAllChannels, hv]⟩

theorem WellFormed_Uninitialize {s : State} (h : WellFormed s) :
    WellFormed ( Uninitialize s).1 := by
  unfold Uninitialize
  split
  · exact h
  · split
    · exact WellFormed_congr (WellFormed_Logout (WellFormed_LeaveAllChannels h)) rfl rfl rfl rfl
    · exact WellFormed_congr h rfl rfl rfl rfl

theorem WellFormed_Login {s : State} (h : WellFormed s) (a : Option ApiClient) (u : String)
    (cfg : UAccelByteVivoxSettings) : WellFormed (Login s a u cfg).1 := by
  unfold Login
  split
  · exact h
  · split
    · exact h
    · split
      · exact h
      · exact ⟨by simp, by simp, h.3, h.4⟩

theorem WellFormed_HandleLoginTokenResponse {s : State} (h : WellFormed s) (t u : String)
    (cfg : UAccelByteVivoxSettings) (e : VivoxCoreError) :
    WellFormed (HandleLoginTokenResponse s t u cfg e).1 := by
  unfold HandleLoginTokenResponse
  split
  · exact ⟨by simp, h.2, h.3, h.4⟩
  · dsimp only
    split
    · exact ⟨by simp, h.2, h.3, h.4⟩
    · split
      · exact ⟨by simp, h.2, h.3, h.4⟩
      · exact h

theorem WellFormed_HandleVivoxLoginCompleted {s : State} (h : WellFormed s)
    (e : VivoxCoreError) (n : FDelegateHandle) {r : Result}
    (hr : HandleVivoxLoginCompleted s e n = some r) : WellFormed r.1 := by
  unfold HandleVivoxLoginCompleted at hr
  split at hr
  · split at hr
    · simp at hr
    · rename_i sess hs
      simp only [Option.some.injEq] at hr
      subst hr
      exact ⟨by simp [hs], h.2, h.3, h.4⟩
  · simp only [Option.some.injEq] at hr
    subst hr
    exact ⟨by simp, h.2, h.3, h.4⟩

theorem WellFormed_HandleLoginSessionStateChanged {s : State} (h : WellFormed s)
    (st : LoginState) : WellFormed (HandleLoginSessionStateChanged s st).1 := by
  unfold HandleLoginSessionStateChanged
  split
  · exact ⟨by simp, by simp, h.3, h.4⟩
  · exact h

theorem WellFormed_JoinChannel {s : State} (h : WellFormed s) (c : String) :
    WellFormed (JoinChannel s c).1 := by
  unfold JoinChannel
  split
  · exact h
  · split
    · exact h
    · split <;> exact h

theorem WellFormed_HandleJoinTokenResponse {s : State} (h : WellFormed s) (c t u : String)
    (cfg : UAccelByteVivoxSettings) (e : VivoxCoreError) :
    WellFormed (HandleJoinTokenResponse s c t u cfg e).1 := by
  have hadd : WellFormed { s with ChannelSessions :=
      (TMap.Add s.ChannelSessions c (some ⟨cfg.VivoxIssuer, c, cfg.VivoxDomain⟩)) } :=
    ⟨h.1, h.2, fun p hp => by
        rcases TMap.mem_Add hp with h1 | h1
        · exact h.3 p h1
        · subst h1; rfl,
      TMap.Add_keys_distinct _ _ h.4⟩
  unfold HandleJoinTokenResponse
  split
  · exact h
  · split
    · exact h
    · dsimp only
      split
      · exact WellFormed_CleanUpChannelSession hadd c
      · exact hadd

theorem WellFormed_HandleChannelConnectCompleted {s : State} (h : WellFormed s) (c : String)
    (e : VivoxCoreError) (n : FDelegateHandle) :
    WellFormed (HandleChannelConnectCompleted s c e n).1 := by
  unfold HandleChannelConnectCompleted
  split
  · split
    · exact WellFormed_congr h rfl rfl rfl rfl
    · exact h
  · exact WellFormed_CleanUpChannelSession h c

theorem WellFormed_HandleChannelStateChanged {s : State} (h : WellFormed s) (c : String)
    (st : ConnectionState) : WellFormed (HandleChannelStateChanged s c st).1 := by
  unfold HandleChannelStateChanged
  split
  · exact WellFormed_CleanUpChannelSession h c
  · exact h

/-- Every call keeps the state well-formed. -/
theorem WellFormed_step {s : State} (h : WellFormed s) (a : Action) {r : Result}
    (hr : step s a = some r) : WellFormed r.1 := by
  cases a with
  | VivoxLoginCompleted e n => exact WellFormed_HandleVivoxLoginCompleted h e n hr
  | Initialize e =>
    simp only [step, Option.some.injEq] at hr; subst hr
    unfold Initialize
    split
    · exact h
    · split <;> exact WellFormed_congr h rfl rfl rfl rfl
  | Uninitialize =>
    simp only [step, Option.some.injEq] at hr; subst hr
    exact WellFormed_Uninitialize h
  | Login a u cfg =>
    simp only [step, Option.some.injEq] at hr; subst hr
    exact WellFormed_Login h a u cfg
  | LoginTokenError =>
    simp only [step, Option.some.injEq] at hr; subst hr
    exact ⟨by simp [Login_OnError], h.2, h.3, h.4⟩
  | LoginTokenResponse t u cfg e =>
    simp only [step, Option.some.injEq] at hr; subst hr
    exact WellFormed_HandleLoginTokenResponse h t u cfg e
  | LoginSessionStateChanged st =>
    simp only [step, Option.some.injEq] at hr; subst hr
    exact WellFormed_HandleLoginSessionStateChanged h st
  | Logout =>
    simp only [step, Option.some.injEq] at hr; subst hr
    exact WellFormed_Logout h
  | JoinChannel c =>
    simp only [step, Option.some.injEq] at hr; subst hr
    exact WellFormed_JoinChannel h c
  | JoinTokenError c =>
    simp only [step, Option.some.injEq] at hr; subst hr
    exact h
  | JoinTokenResponse c t u cfg e =>
    simp only [step, Option.some.injEq] at hr; subst hr
    exact WellFormed_HandleJoinTokenResponse h c t u cfg e
  | ChannelConnectCompleted c e n =>
    simp only [step, Option.some.injEq] at hr; subst hr
    exact WellFormed_HandleChannelConnectCompleted h c e n
  | ChannelStateChanged c st =>
    simp only [step, Option.some.injEq] at hr; subst hr
    exact WellFormed_HandleChannelStateChanged h c st
  | LeaveChannel c =>
    simp only [step, Option.some.injEq] at hr; subst hr
    unfold LeaveChannel
    split <;> exact h
  | LeaveAllChannels =>
    simp only [step, Option.some.injEq] at hr; subst hr
    exact WellFormed_LeaveAllChannels h
  | SetTransmissionChannel c =>
    simp only [step, Option.some.injEq] at hr; subst hr
    unfold SetTransmissionChannel
    split
    · exact h
    · split <;> exact h
  | SetTransmissionToAll =>
    simp only [step, Option.some.injEq] at hr; subst hr
    unfold SetTransmissionToAll
    split <;> exact h
  | SetTransmissionToNone =>
    simp only [step, Option.some.injEq] at hr; subst hr
    unfold SetTransmissionToNone
    split <;> exact h
  | SetLocalMute b =>
    simp only [step, Option.some.injEq] at hr; subst hr
    unfold SetLocalMute
    split
    · exact h
    · exact WellFormed_congr h rfl rfl rfl rfl
  | SetPlayerMute c p b f =>
    simp only [step, Option.some.injEq] at hr; subst hr
    unfold SetPlayerMute
    split
    · split <;> exact h
    · exact h
  | ParticipantAdded c p d =>
    simp only [step, Option.some.injEq] at hr; subst hr
    exact WellFormed_congr h rfl rfl rfl rfl
  | ParticipantRemoved c p =>
    simp only [step, Option.some.injEq] at hr; subst hr
    exact WellFormed_congr h rfl rfl rfl rfl
  | ParticipantUpdated c p b =>
    simp only [step, Option.some.injEq] at hr; subst hr
    unfold HandleParticipantUpdated
    split
    · exact h
    · split
      · exact h
      · split
        · exact WellFormed_congr h rfl rfl rfl rfl
        · exact h

/-- Every sequence of calls keeps the state well-formed. -/
theorem WellFormed_run {s : State} (h : WellFormed s) (acts : List Action) {r : Result}
    (hr : run s acts = some r) : WellFormed r.1 := by
  induction acts generalizing s r with
  | nil =>
    simp only [run, Option.some.injEq] at hr
    subst hr
    exact h
  | cons a rest ih =>
    simp only [run] at hr
    cases h1 : step s a with
    | none => simp [h1] at hr
    | some r1 =>
      simp only [h1] at hr
      cases h2 : run r1.1 rest with
      | none => simp [h2] at hr
      | some r2 =>
        simp only [h2, Option.some.injEq] at hr
        subst hr
        have h3 : WellFormed r2.1 := ih (WellFormed_step h a h1) h2
        exact h3

/-- Reachable states are well-formed. -/
theorem WellFormed_of_Reachable {s : State} (h : Reachable s) : WellFormed s := by
  obtain ⟨acts, evs, hr⟩ := h
  exact WellFormed_run WellFormed_init acts hr


/-! ## Reachability of the example states -/

theorem Reachable_stateLoggedIn : Reachable stateLoggedIn :=
  ⟨loginCalls, _, rfl⟩

theorem Reachable_stateInChannel : Reachable stateInChannel :=
  ⟨loginCalls ++ joinCalls "party-42" 8 ++ [Action.ParticipantAdded "party-42" "bob" "Bob"], _, rfl⟩

theorem Reachable_stateTwoChannels : Reachable stateTwoChannels :=
  ⟨loginCalls ++ joinCalls "party-42" 8 ++ joinCalls "squad-7" 9, _, rfl⟩

theorem Reachable_stateLoggingIn : Reachable stateLoggingIn :=
  ⟨[.Initialize 0, .Login (some 1) "alice" demoSettings], _, rfl⟩


/-! ## Effects of `LeaveAllChannels`, `Logout` and `CleanUpChannelSession` -/

/-- In a well-formed state `LeaveAllChannels` disconnects the session of every
entry of the channel map, in iteration order, and does nothing else. -/
theorem LeaveAllChannels_events {s : State} (h : WellFormed s) :
    (LeaveAllChannels s).2 = s.ChannelSessions.filterMap (fun p => p.2.map Event.Disconnect) := by
  simp only [LeaveAllChannels, TMap.GetKeys, List.filterMap_map]
  apply List.filterMap_congr
  intro p hp
  simp only [Function.comp_apply, TMap.Find_of_mem h.4 hp]
  cases p.2 <;> rfl

theorem disconnects_sessions (m : TMap (Option ChannelId)) :
    disconnects (m.filterMap (fun p => p.2.map Event.Disconnect)) =
      m.filterMap (fun p => p.2.map Event.Disconnect) := by
  induction m with
  | nil => rfl
  | cons p rest ih =>
    obtain ⟨k, v⟩ := p
    cases v with
    | none => simpa [List.filterMap_cons] using ih
    | some c =>
      simp only [List.filterMap_cons, Option.map_some', disconnects, List.filter_cons,
        Event.isDisconnect, if_true]
      exact congrArg _ ih

theorem notifications_sessions (m : TMap (Option ChannelId)) :
    notifications (m.filterMap (fun p => p.2.map Event.Disconnect)) = [] := by
  induction m with
  | nil => rfl
  | cons p rest ih =>
    obtain ⟨k, v⟩ := p
    cases v with
    | none => simpa [List.filterMap_cons] using ih
    | some c =>
      simp only [List.filterMap_cons, Option.map_some', notifications, List.filter_cons,
        Event.isNotification, Bool.false_eq_true, if_false]
      exact ih

theorem length_sessions (m : TMap (Option ChannelId)) (h : ∀ p ∈ m, p.2.isSome = true) :
    (m.filterMap (fun p => p.2.map Event.Disconnect)).length = m.length := by
  induction m with
  | nil => rfl
  | cons p rest ih =>
    obtain ⟨k, v⟩ := p
    have hv := h (k, v) (List.mem_cons_self _ _)
    cases v with
    | none => simp at hv
    | some c =>
      simp only [List.filterMap_cons, Option.map_some', List.length_cons]
      exact congrArg _ (ih (fun q hq => h q (List.mem_cons_of_mem _ hq)))

/-- What `Logout` does when there is a login session and the state is not
`NotLoggedIn`. -/
theorem Logout_eq {s : State} {sess : AccountId} (hs : s.VivoxLoginSession = some sess)
    (hl : s.CurrentLoginState ≠ .NotLoggedIn) :
    Logout s =
      ({ s with
          ChannelSessions := []
          ChannelStateChangedHandles := []
          ParticipantTalkingState := []
          LoginSessionStateChangedHandle :=
            if s.LoginSessionStateChangedHandle.IsValid then ⟨0⟩
            else s.LoginSessionStateChangedHandle
          VivoxLoginSession := none
          CurrentLoginState := .NotLoggedIn
          ApiClientPtr := none },
        (LeaveAllChannels s).2 ++
          (if s.LoginSessionStateChangedHandle.IsValid then
            [Event.LoginStateChangedRemove sess s.LoginSessionStateChangedHandle]
           else []) ++
          [Event.SessionLogout sess, Event.OnLogoutCompleted]) := by
  unfold Logout
  rw [hs]
  simp only [hl, if_false]
  by_cases hv : s.LoginSessionStateChangedHandle.IsValid = true
  · simp [LeaveAllChannels, hv]
  · simp [LeaveAllChannels, hv]

/-- The calls `CleanUpChannelSession` makes are SDK calls: no broadcast. -/
theorem notifications_CleanUpChannelSession (s : State) (X : String) :
    notifications (CleanUpChannelSession s X).2 = [] := by
  unfold CleanUpChannelSession
  simp only [notifications, List.filter_append, List.append_eq_nil, List.filter_eq_nil_iff]
  constructor
  · intro e he
    split at he
    · split at he
      · simp only [List.mem_singleton] at he; subst he; simp [Event.isNotification]
      · simp at he
    · simp at he
  · intro e he
    split at he
    · simp only [List.mem_singleton] at he; subst he; simp [Event.isNotification]
    · simp at he


/-! ## Joining a channel that is already joined -/

/-- C1: in a state that is logged in, whose channel map holds an entry for X and
in which the connect for X has completed (its state-changed handle is
registered), `JoinChannel X` broadcasts channel-joined(X, true) as its only
effect, sends no token request and leaves the state as it was; so any number of
such calls gives one channel-joined(X, true) per call and no token request. -/
theorem C1_JoinChannel_already_joined (s : State) (X : String)
    (hlogin : s.CurrentLoginState = .LoggedIn)
    (hentry : TMap.Contains s.ChannelSessions X = true)
    (_hconnected : TMap.Contains s.ChannelStateChangedHandles X = true) :
    (JoinChannel s X).1 = s ∧
    (JoinChannel s X).2 = [Event.OnChannelJoined X true] ∧
    notifications (JoinChannel s X).2 = [Event.OnChannelJoined X true] ∧
    tokenRequests (JoinChannel s X).2 = [] ∧
    ∀ n : Nat, run s (List.replicate n (Action.JoinChannel X)) =
      some (s, List.replicate n (Event.OnChannelJoined X true)) := by
  have hj : JoinChannel s X = (s, [Event.OnChannelJoined X true]) := by
    simp [JoinChannel, hlogin, hentry]
  refine ⟨by rw [hj], by rw [hj], by rw [hj]; rfl, by rw [hj]; rfl, ?_⟩
  intro n
  induction n with
  | zero => rfl
  | succ k ih =>
    simp only [List.replicate_succ, run, step, hj, ih]
    rfl

/-- C1 in the state where "alice" is connected to "party-42". -/
theorem C1_JoinChannel_already_joined_witness :
    (stateInChannel.CurrentLoginState = .LoggedIn ∧
      TMap.Contains stateInChannel.ChannelSessions "party-42" = true ∧
      TMap.Contains stateInChannel.ChannelStateChangedHandles "party-42" = true) ∧
    (JoinChannel stateInChannel "party-42").1 = stateInChannel ∧
    (JoinChannel stateInChannel "party-42").2 = [Event.OnChannelJoined "party-42" true] :=
  ⟨by decide,
    (C1_JoinChannel_already_joined stateInChannel "party-42"
      (by decide) (by decide) (by decide)).1,
    (C1_JoinChannel_already_joined stateInChannel "party-42"
      (by decide) (by decide) (by decide)).2.1⟩

/-! ## Two joins of the same channel before the token arrives -/

/-- C2, as stated, fails: logged in as "alice" with no entry for "party-42", two
`JoinChannel "party-42"` calls in a row send two join token requests for
"party-42", not at most one. -/
theorem C2_two_joins_two_token_requests :
    stateLoggedIn.CurrentLoginState = .LoggedIn ∧
    stateLoggedIn.ApiClientPtr.isSome = true ∧
    TMap.Contains stateLoggedIn.ChannelSessions "party-42" = false ∧
    ¬ ((joinTokenRequestsFor "party-42"
          ((JoinChannel stateLoggedIn "party-42").2 ++
            (JoinChannel (JoinChannel stateLoggedIn "party-42").1 "party-42").2)).length ≤ 1) := by
  decide

/-- C2, amended: in a logged-in state with a valid credential context and no
channel entry for X, `JoinChannel X` sends exactly one join token request for X
and leaves the state as it was (the channel map gets its entry only when the
token response is handled); so two calls in a row send exactly two join token
requests for X.  Once the entry for X is in the channel map, a further call
sends none. -/
theorem C2_each_join_requests_a_token (s : State) (X : String)
    (hlogin : s.CurrentLoginState = .LoggedIn)
    (hapi : s.ApiClientPtr.isSome = true)
    (hentry : TMap.Contains s.ChannelSessions X = false) :
    JoinChannel s X =
      (s, [Event.ServiceGenerateVivoxToken ⟨.join, s.Username, X, .nonpositional⟩]) ∧
    (joinTokenRequestsFor X (JoinChannel s X).2).length = 1 ∧
    (joinTokenRequestsFor X
      ((JoinChannel s X).2 ++ (JoinChannel (JoinChannel s X).1 X).2)).length = 2 ∧
    ∀ t : State, t.CurrentLoginState = .LoggedIn → TMap.Contains t.ChannelSessions X = true →
      joinTokenRequestsFor X (JoinChannel t X).2 = [] := by
  have hj : JoinChannel s X =
      (s, [Event.ServiceGenerateVivoxToken ⟨.join, s.Username, X, .nonpositional⟩]) := by
    obtain ⟨c, hc⟩ := Option.isSome_iff_exists.mp hapi
    simp [JoinChannel, hlogin, hentry, hc]
  refine ⟨hj, ?_, ?_, ?_⟩
  · simp [hj, joinTokenRequestsFor, Event.isJoinTokenRequestFor]
  · simp [hj, joinTokenRequestsFor, Event.isJoinTokenRequestFor]
  · intro t ht hc
    simp [JoinChannel, ht, hc, joinTokenRequestsFor, Event.isJoinTokenRequestFor]

/-- C2, amended, in the state where "alice" is logged in and has joined no channel. -/
theorem C2_each_join_requests_a_token_witness :
    (stateLoggedIn.CurrentLoginState = .LoggedIn ∧
      stateLoggedIn.ApiClientPtr.isSome = true ∧
      TMap.Contains stateLoggedIn.ChannelSessions "party-42" = false) ∧
    JoinChannel stateLoggedIn "party-42" =
      (stateLoggedIn,
        [Event.ServiceGenerateVivoxToken
          ⟨.join, stateLoggedIn.Username, "party-42", .nonpositional⟩]) ∧
    (joinTokenRequestsFor "party-42"
      ((JoinChannel stateLoggedIn "party-42").2 ++
        (JoinChannel (JoinChannel stateLoggedIn "party-42").1 "party-42").2)).length = 2 :=
  ⟨by decide,
    (C2_each_join_requests_a_token stateLoggedIn "party-42"
      (by decide) (by decide) (by decide)).1,
    (C2_each_join_requests_a_token stateLoggedIn "party-42"
      (by decide) (by decide) (by decide)).2.2.1⟩

/-! ## Involuntary logout -/

/-- C3, at the failing input: in the reachable state where "alice" is in
"party-42" with participant "bob", handling the login-state change to
`LoggedOut` sets the login state to `NotLoggedIn`, drops the login session and
broadcasts logout-completed once, but the channel map, the state-changed-handle
map and the participant talking tables keep their entries. -/
theorem C3_involuntary_logout_keeps_channel_state :
    (HandleLoginSessionStateChanged stateInChannel .LoggedOut).1.CurrentLoginState =
      .NotLoggedIn ∧
    (HandleLoginSessionStateChanged stateInChannel .LoggedOut).2 = [Event.OnLogoutCompleted] ∧
    (HandleLoginSessionStateChanged stateInChannel .LoggedOut).1.ChannelSessions =
      [("party-42", some ⟨"issuer", "party-42", "vivox.example"⟩)] ∧
    (HandleLoginSessionStateChanged stateInChannel .LoggedOut).1.ChannelStateChangedHandles =
      [("party-42", ⟨8⟩)] ∧
    (HandleLoginSessionStateChanged stateInChannel .LoggedOut).1.ParticipantTalkingState =
      [("party-42", [("bob", false)])] := by
  decide

/-- C4, at the failing input: the calls of `involuntaryLogoutCalls`, made on a
fresh object, lead to a state that is not logged in and whose channel map still
holds the entry for "party-42". -/
theorem C4_channel_entry_while_not_logged_in :
    (run State.init involuntaryLogoutCalls).map
        (fun r => (r.1.CurrentLoginState, r.1.ChannelSessions)) =
      some (EVivoxLoginState.NotLoggedIn,
        [("party-42", some ⟨"issuer", "party-42", "vivox.example"⟩)]) := by
  decide

/-! ## Rejected login -/

/-- C5: when the SDK client is not initialised, or the login state is not
`NotLoggedIn`, or the credential context passed in is invalid, `Login`
broadcasts login-completed(false) as its only effect (no token request, no SDK
call) and leaves the whole state as it was. -/
theorem C5_Login_rejected (s : State) (ApiClient : Option ApiClient) (InUsername : String)
    (Settings : UAccelByteVivoxSettings)
    (h : s.VivoxVoiceClient = false ∨ s.CurrentLoginState ≠ .NotLoggedIn ∨ ApiClient = none) :
    (Login s ApiClient InUsername Settings).1 = s ∧
    (Login s ApiClient InUsername Settings).2 = [Event.OnLoginCompleted false] ∧
    notifications (Login s ApiClient InUsername Settings).2 = [Event.OnLoginCompleted false] ∧
    tokenRequests (Login s ApiClient InUsername Settings).2 = [] ∧
    backendCalls (Login s ApiClient InUsername Settings).2 = [] := by
  have hl : Login s ApiClient InUsername Settings = (s, [Event.OnLoginCompleted false]) := by
    unfold Login
    rcases h with h | h | h
    · simp [h]
    · split
      · rfl
      · simp [h]
    · subst h
      split
      · rfl
      · split <;> rfl
  rw [hl]
  exact ⟨rfl, rfl, rfl, rfl, rfl⟩

/-- C5 for a second `Login` made while the first one is in progress. -/
theorem C5_Login_rejected_witness :
    (stateLoggingIn.VivoxVoiceClient = false ∨
      stateLoggingIn.CurrentLoginState ≠ .NotLoggedIn ∨ (some 2 : Option ApiClient) = none) ∧
    (Login stateLoggingIn (some 2) "bob" demoSettings).1 = stateLoggingIn ∧
    (Login stateLoggingIn (some 2) "bob" demoSettings).2 = [Event.OnLoginCompleted false] :=
  ⟨Or.inr (Or.inl (by decide)),
    (C5_Login_rejected stateLoggingIn (some 2) "bob" demoSettings
      (Or.inr (Or.inl (by decide)))).1,
    (C5_Login_rejected stateLoggingIn (some 2) "bob" demoSettings
      (Or.inr (Or.inl (by decide)))).2.1⟩

/-! ## Failed login -/

/-- C6: from the state `LoggingIn` an accepted `Login` leaves, every failure
path sets the login state to `NotLoggedIn` and broadcasts login-completed(false)
once and nothing else: the error handler of the token request, the token
response handler when it fails (null session, empty server address, or
`BeginLogin` returning an error), and a login completion with an error. -/
theorem C6_login_failure_paths (s : State) (_hs : s.CurrentLoginState = .LoggingIn) :
    ((Login_OnError s).1.CurrentLoginState = .NotLoggedIn ∧
      notifications (Login_OnError s).2 = [Event.OnLoginCompleted false]) ∧
    (∀ (AccessToken Uri : String) (Settings : UAccelByteVivoxSettings) (Error : VivoxCoreError),
      (s.VivoxLoginSession = none ∨ FString.IsEmpty Settings.VivoxServer = true ∨
        Error ≠ VxErrorSuccess) →
      (HandleLoginTokenResponse s AccessToken Uri Settings Error).1.CurrentLoginState =
        .NotLoggedIn ∧
      notifications (HandleLoginTokenResponse s AccessToken Uri Settings Error).2 =
        [Event.OnLoginCompleted false]) ∧
    (∀ (Error : VivoxCoreError) (NewHandle : FDelegateHandle), Error ≠ VxErrorSuccess →
      ∃ r, HandleVivoxLoginCompleted s Error NewHandle = some r ∧
        r.1.CurrentLoginState = .NotLoggedIn ∧
        notifications r.2 = [Event.OnLoginCompleted false]) := by
  refine ⟨⟨rfl, rfl⟩, ?_, ?_⟩
  · intro t u cfg e h
    unfold HandleLoginTokenResponse
    split
    · exact ⟨rfl, rfl⟩
    · rename_i sess hsess
      dsimp only
      split
      · exact ⟨rfl, rfl⟩
      · rename_i hempty
        have he : e ≠ VxErrorSuccess := by
          rcases h with h | h | h
          · rw [hsess] at h; cases h
          · exact absurd h hempty
          · exact h
        rw [if_pos he]
        exact ⟨rfl, rfl⟩
  · intro e n he
    refine ⟨({ s with CurrentLoginState := .NotLoggedIn }, [Event.OnLoginCompleted false]),
      ?_, rfl, rfl⟩
    simp [HandleVivoxLoginCompleted, he]

/-- C6 in the state an accepted `Login` of "alice" leaves, with error code 5. -/
theorem C6_login_failure_paths_witness :
    stateLoggingIn.CurrentLoginState = .LoggingIn ∧
    ((Login_OnError stateLoggingIn).1.CurrentLoginState = .NotLoggedIn ∧
      notifications (Login_OnError stateLoggingIn).2 = [Event.OnLoginCompleted false]) ∧
    ((HandleLoginTokenResponse stateLoggingIn "login-token" "uri" demoSettings 5).1.CurrentLoginState
        = .NotLoggedIn ∧
      notifications (HandleLoginTokenResponse stateLoggingIn "login-token" "uri" demoSettings 5).2
        = [Event.OnLoginCompleted false]) ∧
    (∃ r, HandleVivoxLoginCompleted stateLoggingIn 5 ⟨7⟩ = some r ∧
      r.1.CurrentLoginState = .NotLoggedIn ∧
      notifications r.2 = [Event.OnLoginCompleted false]) :=
  ⟨by decide,
    (C6_login_failure_paths stateLoggingIn (by decide)).1,
    (C6_login_failure_paths stateLoggingIn (by decide)).2.1 "login-token" "uri" demoSettings 5
      (Or.inr (Or.inr (by decide))),
    (C6_login_failure_paths stateLoggingIn (by decide)).2.2 5 ⟨7⟩ (by decide)⟩

/-! ## Joining while not logged in -/

/-- C7: when the login state is not `LoggedIn`, `JoinChannel X` broadcasts
channel-joined(X, false) as its only effect, sends no token request and leaves
the channel map and every other member as it was. -/
theorem C7_JoinChannel_not_logged_in (s : State) (X : String)
    (h : s.CurrentLoginState ≠ .LoggedIn) :
    (JoinChannel s X).1 = s ∧
    (JoinChannel s X).2 = [Event.OnChannelJoined X false] ∧
    notifications (JoinChannel s X).2 = [Event.OnChannelJoined X false] ∧
    tokenRequests (JoinChannel s X).2 = [] := by
  have hj : JoinChannel s X = (s, [Event.OnChannelJoined X false]) := by
    simp [JoinChannel, h]
  rw [hj]
  exact ⟨rfl, rfl, rfl, rfl⟩

/-- C7 in the state a failed token request for the login leaves. -/
theorem C7_JoinChannel_not_logged_in_witness :
    (Login_OnError stateLoggingIn).1.CurrentLoginState ≠ .LoggedIn ∧
    (JoinChannel (Login_OnError stateLoggingIn).1 "party-42").1 =
      (Login_OnError stateLoggingIn).1 ∧
    (JoinChannel (Login_OnError stateLoggingIn).1 "party-42").2 =
      [Event.OnChannelJoined "party-42" false] :=
  ⟨by decide,
    (C7_JoinChannel_not_logged_in (Login_OnError stateLoggingIn).1 "party-42" (by decide)).1,
    (C7_JoinChannel_not_logged_in (Login_OnError stateLoggingIn).1 "party-42" (by decide)).2.1⟩

/-! ## Entering `LoggedIn` -/

/-- C8, at the failing input: after the calls of `lateCompletionCalls` the login
state is `NotLoggedIn`, and the successful completion of the first `BeginLogin`,
delivered then, sets it to `LoggedIn` and broadcasts login-completed(true).
When the completion is delivered right after `Logout`, the call goes through the
null login session and has no defined result. -/
theorem C8_late_login_completion_enters_LoggedIn :
    (run State.init lateCompletionCalls).map (fun r => r.1.CurrentLoginState) =
      some EVivoxLoginState.NotLoggedIn ∧
    ((run State.init lateCompletionCalls).bind
        (fun r => HandleVivoxLoginCompleted r.1 VxErrorSuccess ⟨7⟩)).map
        (fun r => (r.1.CurrentLoginState, notifications r.2)) =
      some (EVivoxLoginState.LoggedIn, [Event.OnLoginCompleted true]) ∧
    (run State.init logoutWhileLoggingInCalls).map (fun r => r.1.CurrentLoginState) =
      some EVivoxLoginState.NotLoggedIn ∧
    (run State.init logoutWhileLoggingInCalls).bind
        (fun r => HandleVivoxLoginCompleted r.1 VxErrorSuccess ⟨7⟩) = none := by
  decide


/-! ## Logout with channels joined -/

/-- C9: in a reachable logged-in state with any channel entries, `Logout`
disconnects the session of every entry (one disconnect per entry), leaves the
channel map, the handle map and the participant tables empty, sets the login
state to `NotLoggedIn`, releases the credential context and broadcasts
logout-completed once and nothing else; `LeaveAllChannels` or a second `Logout`
made afterwards changes no member and has no effect. -/
theorem C9_Logout_with_channels (s : State) (hr : Reachable s)
    (hl : s.CurrentLoginState = .LoggedIn) :
    disconnects (Logout s).2 = s.ChannelSessions.filterMap (fun p => p.2.map Event.Disconnect) ∧
    (disconnects (Logout s).2).length = s.ChannelSessions.length ∧
    (Logout s).1.ChannelSessions = [] ∧
    (Logout s).1.ChannelStateChangedHandles = [] ∧
    (Logout s).1.ParticipantTalkingState = [] ∧
    (Logout s).1.CurrentLoginState = .NotLoggedIn ∧
    (Logout s).1.ApiClientPtr = none ∧
    notifications (Logout s).2 = [Event.OnLogoutCompleted] ∧
    LeaveAllChannels (Logout s).1 = ((Logout s).1, []) ∧
    Logout (Logout s).1 = ((Logout s).1, []) := by
  have wf := WellFormed_of_Reachable hr
  obtain ⟨sess, hsess⟩ := Option.isSome_iff_exists.mp (wf.1 hl)
  have hne : s.CurrentLoginState ≠ .NotLoggedIn := by rw [hl]; decide
  have hd : disconnects (Logout s).2 =
      s.ChannelSessions.filterMap (fun p => p.2.map Event.Disconnect) := by
    rw [Logout_eq hsess hne, LeaveAllChannels_events wf]
    simp only [disconnects, List.filter_append]
    have h1 := disconnects_sessions s.ChannelSessions
    simp only [disconnects] at h1
    rw [h1]
    by_cases hv : s.LoginSessionStateChangedHandle.IsValid = true
    · simp [hv, Event.isDisconnect]
    · simp [hv, Event.isDisconnect]
  have hn : notifications (Logout s).2 = [Event.OnLogoutCompleted] := by
    rw [Logout_eq hsess hne, LeaveAllChannels_events wf]
    simp only [notifications, List.filter_append]
    have h1 := notifications_sessions s.ChannelSessions
    simp only [notifications] at h1
    rw [h1]
    by_cases hv : s.LoginSessionStateChangedHandle.IsValid = true
    · simp [hv, Event.isNotification]
    · simp [hv, Event.isNotification]
  refine ⟨hd, ?_, ?_, ?_, ?_, ?_, ?_, hn, ?_, ?_⟩
  · rw [hd]; exact length_sessions _ wf.3
  · rw [Logout_eq hsess hne]
  · rw [Logout_eq hsess hne]
  · rw [Logout_eq hsess hne]
  · rw [Logout_eq hsess hne]
  · rw [Logout_eq hsess hne]
  · rw [Logout_eq hsess hne]
    simp [LeaveAllChannels, TMap.GetKeys]
  · rw [Logout_eq hsess hne]
    simp [Logout]

/-- C9 in the state where "alice" is connected to "party-42" and "squad-7". -/
theorem C9_Logout_with_channels_witness :
    (Reachable stateTwoChannels ∧ stateTwoChannels.CurrentLoginState = .LoggedIn) ∧
    disconnects (Logout stateTwoChannels).2 =
      [Event.Disconnect ⟨"issuer", "party-42", "vivox.example"⟩,
       Event.Disconnect ⟨"issuer", "squad-7", "vivox.example"⟩] ∧
    notifications (Logout stateTwoChannels).2 = [Event.OnLogoutCompleted] ∧
    LeaveAllChannels (Logout stateTwoChannels).1 = ((Logout stateTwoChannels).1, []) ∧
    Logout (Logout stateTwoChannels).1 = ((Logout stateTwoChannels).1, []) :=
  ⟨⟨Reachable_stateTwoChannels, by decide⟩,
    (C9_Logout_with_channels stateTwoChannels Reachable_stateTwoChannels (by decide)).1,
    (C9_Logout_with_channels stateTwoChannels Reachable_stateTwoChannels
      (by decide)).2.2.2.2.2.2.2.1,
    (C9_Logout_with_channels stateTwoChannels Reachable_stateTwoChannels
      (by decide)).2.2.2.2.2.2.2.2.1,
    (C9_Logout_with_channels stateTwoChannels Reachable_stateTwoChannels
      (by decide)).2.2.2.2.2.2.2.2.2⟩

/-! ## A channel reported disconnected -/

/-- C10: in a reachable logged-in state in which X is a connected channel,
handling the channel-state change to `Disconnected` for X removes X from the
channel map, the handle map and the participant talking tables, and broadcasts
channel-left(X) once, as its last effect; `JoinChannel X` made afterwards takes
the fresh-join path: its only effect is a join token request for X.  A change
to any other state changes no member and has no effect. -/
theorem C10_channel_disconnected (s : State) (X : String) (hr : Reachable s)
    (hl : s.CurrentLoginState = .LoggedIn)
    (_hentry : TMap.Contains s.ChannelSessions X = true)
    (_hconnected : TMap.Contains s.ChannelStateChangedHandles X = true) :
    IsInChannel (HandleChannelStateChanged s X .Disconnected).1 X = false ∧
    TMap.Contains (HandleChannelStateChanged s X .Disconnected).1.ChannelStateChangedHandles X
      = false ∧
    TMap.Find (HandleChannelStateChanged s X .Disconnected).1.ParticipantTalkingState X = none ∧
    notifications (HandleChannelStateChanged s X .Disconnected).2 = [Event.OnChannelLeft X] ∧
    (HandleChannelStateChanged s X .Disconnected).2.getLast? = some (Event.OnChannelLeft X) ∧
    JoinChannel (HandleChannelStateChanged s X .Disconnected).1 X =
      ((HandleChannelStateChanged s X .Disconnected).1,
        [Event.ServiceGenerateVivoxToken ⟨.join, s.Username, X, .nonpositional⟩]) ∧
    ∀ st : ConnectionState, st ≠ .Disconnected → HandleChannelStateChanged s X st = (s, []) := by
  have wf := WellFormed_of_Reachable hr
  obtain ⟨api, hapi⟩ := Option.isSome_iff_exists.mp (wf.2 (wf.1 hl))
  have hc : HandleChannelStateChanged s X .Disconnected =
      ((CleanUpChannelSession s X).1,
        (CleanUpChannelSession s X).2 ++ [Event.OnChannelLeft X]) := by
    simp [HandleChannelStateChanged]
  have hsessions : (CleanUpChannelSession s X).1.ChannelSessions =
      TMap.Remove s.ChannelSessions X := rfl
  have htalk : (CleanUpChannelSession s X).1.ParticipantTalkingState =
      TMap.Remove s.ParticipantTalkingState X := rfl
  have hhandles : TMap.Contains (CleanUpChannelSession s X).1.ChannelStateChangedHandles X
      = false := by
    unfold CleanUpChannelSession
    dsimp only
    split
    · exact TMap.Contains_Remove_self _ _
    · rename_i hnone
      simp [TMap.Contains, hnone]
  rw [hc]
  refine ⟨?_, hhandles, ?_, ?_, ?_, ?_, ?_⟩
  · simp only [IsInChannel, hsessions]
    exact TMap.Contains_Remove_self _ _
  · simp only [htalk]
    exact TMap.Find_Remove_self _ _
  · have h1 := notifications_CleanUpChannelSession s X
    simp only [notifications] at h1
    simp only [notifications, List.filter_append, h1]
    rfl
  · simp
  · have h1 : (CleanUpChannelSession s X).1.CurrentLoginState = .LoggedIn := hl
    have h2 : (CleanUpChannelSession s X).1.ApiClientPtr = some api := hapi
    have h3 : (CleanUpChannelSession s X).1.Username = s.Username := rfl
    have h4 : TMap.Contains (CleanUpChannelSession s X).1.ChannelSessions X = false := by
      rw [hsessions]; exact TMap.Contains_Remove_self _ _
    simp [JoinChannel, h1, h2, h3, h4]
  · intro st hst
    simp [HandleChannelStateChanged, hst]

/-- C10 in the state where "alice" is connected to "party-42". -/
theorem C10_channel_disconnected_witness :
    (Reachable stateInChannel ∧ stateInChannel.CurrentLoginState = .LoggedIn ∧
      TMap.Contains stateInChannel.ChannelSessions "party-42" = true ∧
      TMap.Contains stateInChannel.ChannelStateChangedHandles "party-42" = true) ∧
    IsInChannel (HandleChannelStateChanged stateInChannel "party-42" .Disconnected).1 "party-42"
      = false ∧
    notifications (HandleChannelStateChanged stateInChannel "party-42" .Disconnected).2 =
      [Event.OnChannelLeft "party-42"] ∧
    JoinChannel (HandleChannelStateChanged stateInChannel "party-42" .Disconnected).1 "party-42" =
      ((HandleChannelStateChanged stateInChannel "party-42" .Disconnected).1,
        [Event.ServiceGenerateVivoxToken
          ⟨.join, stateInChannel.Username, "party-42", .nonpositional⟩]) :=
  ⟨⟨Reachable_stateInChannel, by decide⟩,
    (C10_channel_disconnected stateInChannel "party-42" Reachable_stateInChannel
      (by decide) (by decide) (by decide)).1,
    (C10_channel_disconnected stateInChannel "party-42" Reachable_stateInChannel
      (by decide) (by decide) (by decide)).2.2.2.1,
    (C10_channel_disconnected stateInChannel "party-42" Reachable_stateInChannel
      (by decide) (by decide) (by decide)).2.2.2.2.2.1⟩

/-! ## More lemmas on `TMap` -/

namespace TMap

variable {V : Type}

/-- Equal keys find the same value. -/
theorem Find_congr (m : TMap V) {k k1 : String} (h : FString.Equals k k1 = true) :
    Find m k = Find m k1 := by
  induction m with
  | nil => rfl
  | cons p rest ih =>
    obtain ⟨k0, v0⟩ := p
    cases h0 : FString.Equals k0 k with
    | true =>
      have h1 : FString.Equals k0 k1 = true := FString.Equals_trans h0 h
      simp [Find, h0, h1]
    | false =>
      cases h1 : FString.Equals k0 k1 with
      | true =>
        have h2 := FString.Equals_trans h1 (FString.Equals_symm h)
        rw [h0] at h2
        cases h2
      | false => simpa [Find, h0, h1] using ih

theorem Find_Remove_of_ne (m : TMap V) {k X : String} (h : FString.Equals k X = false) :
    Find (Remove m X) k = Find m k := by
  induction m with
  | nil => rfl
  | cons p rest ih =>
    obtain ⟨k0, v0⟩ := p
    have ih1 : Find (List.filter (fun p => !FString.Equals p.1 X) rest) k = Find rest k := ih
    cases h0 : FString.Equals k0 X with
    | true =>
      have h1 : FString.Equals k0 k = false := by
        cases h1 : FString.Equals k0 k with
        | false => rfl
        | true =>
          have h2 := FString.Equals_trans (FString.Equals_symm h1) h0
          rw [h] at h2
          cases h2
      simp [Remove, List.filter_cons, h0, Find, h1, ih1]
    | false =>
      cases h1 : FString.Equals k0 k <;> simp [Remove, List.filter_cons, h0, Find, h1, ih1]

theorem Remove_of_Find_none (m : TMap V) {k : String} (h : Find m k = none) :
    Remove m k = m := by
  induction m with
  | nil => rfl
  | cons p rest ih =>
    obtain ⟨k0, v0⟩ := p
    cases h0 : FString.Equals k0 k with
    | true => simp [Find, h0] at h
    | false =>
      simp only [Find, h0, Bool.false_eq_true, if_false] at h
      have ih1 : List.filter (fun p => !FString.Equals p.1 k) rest = rest := ih h
      simp [Remove, List.filter_cons, h0, ih1]

theorem Remove_Remove (m : TMap V) (k : String) : Remove (Remove m k) k = Remove m k :=
  Remove_of_Find_none _ (Find_Remove_self m k)

theorem Find_Add (m : TMap V) (k k1 : String) (v : V) :
    Find (Add m k v) k1 = if FString.Equals k k1 then some v else Find m k1 := by
  induction m with
  | nil => simp [Add, Find]
  | cons p rest ih =>
    obtain ⟨k0, v0⟩ := p
    cases h0 : FString.Equals k0 k with
    | true =>
      cases h1 : FString.Equals k k1 with
      | true => simp [Add, Find, h0, h1]
      | false =>
        have h2 : FString.Equals k0 k1 = false := by
          cases h2 : FString.Equals k0 k1 with
          | false => rfl
          | true =>
            have h3 := FString.Equals_trans (FString.Equals_symm h0) h2
            rw [h1] at h3
            cases h3
        simp [Add, Find, h0, h1, h2]
    | false =>
      cases h2 : FString.Equals k0 k1 with
      | true =>
        have h1 : FString.Equals k k1 = false := by
          cases h1 : FString.Equals k k1 with
          | false => rfl
          | true =>
            have h3 := FString.Equals_trans h2 (FString.Equals_symm h1)
            rw [h0] at h3
            cases h3
        simp [Add, Find, h0, h1, h2]
      | false => simp [Add, Find, h0, h2, ih]

theorem Find_Modify_self (m : TMap V) (k : String) (f : V → V) :
    Find (Modify m k f) k = (Find m k).map f := by
  induction m with
  | nil => rfl
  | cons p rest ih =>
    obtain ⟨k0, v0⟩ := p
    cases h0 : FString.Equals k0 k <;> simp [Modify, Find, h0, ih]

theorem Modify_of_Find_none (m : TMap V) {k : String} (f : V → V) (h : Find m k = none) :
    Modify m k f = m := by
  induction m with
  | nil => rfl
  | cons p rest ih =>
    obtain ⟨k0, v0⟩ := p
    cases h0 : FString.Equals k0 k with
    | true => simp [Find, h0] at h
    | false =>
      simp only [Find, h0, Bool.false_eq_true, if_false] at h
      simp [Modify, h0, ih h]

end TMap


/-! ## The state `CleanUpChannelSession` leaves, and the handle map invariant -/

/-- The members `CleanUpChannelSession` assigns: the name is removed from the
three maps. -/
theorem CleanUpChannelSession_state (s : State) (X : String) :
    (CleanUpChannelSession s X).1 =
      { s with
        ChannelStateChangedHandles := TMap.Remove s.ChannelStateChangedHandles X
        ChannelSessions := TMap.Remove s.ChannelSessions X
        ParticipantTalkingState := TMap.Remove s.ParticipantTalkingState X } := by
  unfold CleanUpChannelSession
  cases h : TMap.Find s.ChannelStateChangedHandles X with
  | none => simp only [TMap.Remove_of_Find_none _ h]
  | some hd => rfl

theorem HandlesTracked_init : HandlesTracked State.init := by
  intro k hk
  simp [State.init, TMap.Contains, TMap.Find] at hk

theorem HandlesTracked_congr {s t : State} (h : HandlesTracked s)
    (h1 : t.ChannelStateChangedHandles = s.ChannelStateChangedHandles)
    (h2 : t.ChannelSessions = s.ChannelSessions) : HandlesTracked t := by
  intro k hk
  rw [h1] at hk
  rw [h2]
  exact h k hk

theorem HandlesTracked_of_no_handles {t : State} (h : t.ChannelStateChangedHandles = []) :
    HandlesTracked t := by
  intro k hk
  simp [h, TMap.Contains, TMap.Find] at hk

theorem HandlesTracked_CleanUpChannelSession {s : State} (h : HandlesTracked s) (X : String) :
    HandlesTracked (CleanUpChannelSession s X).1 := by
  intro k hk
  rw [CleanUpChannelSession_state] at hk ⊢
  simp only [TMap.Contains] at hk ⊢
  cases hkX : FString.Equals k X with
  | true =>
    rw [TMap.Find_congr _ hkX, TMap.Find_Remove_self] at hk
    cases hk
  | false =>
    rw [TMap.Find_Remove_of_ne _ hkX] at hk ⊢
    exact h k hk

theorem HandlesTracked_LeaveAllChannels (s : State) : HandlesTracked (LeaveAllChannels s).1 :=
  HandlesTracked_of_no_handles rfl

theorem HandlesTracked_Logout {s : State} (h : HandlesTracked s) :
    HandlesTracked (Logout s).1 := by
  unfold Logout
  split
  · exact h
  · split
    · exact h
    · apply HandlesTracked_of_no_handles
      by_cases hv : s.LoginSessionStateChangedHandle.IsValid = true
      · simp [LeaveAllChannels, hv]
      · simp [LeaveAllChannels, hv]

theorem HandlesTracked_Uninitialize {s : State} (h : HandlesTracked s) :
    HandlesTracked ( Uninitialize s).1 := by
  unfold Uninitialize
  split
  · exact h
  · split
    · exact HandlesTracked_congr (HandlesTracked_Logout (HandlesTracked_LeaveAllChannels s))
        rfl rfl
    · exact HandlesTracked_congr h rfl rfl

theorem HandlesTracked_HandleJoinTokenResponse {s : State} (h : HandlesTracked s)
    (c t u : String) (cfg : UAccelByteVivoxSettings) (e : VivoxCoreError) :
    HandlesTracked (HandleJoinTokenResponse s c t u cfg e).1 := by
  have hadd : HandlesTracked { s with ChannelSessions :=
      (TMap.Add s.ChannelSessions c (some ⟨cfg.VivoxIssuer, c, cfg.VivoxDomain⟩)) } := by
    intro k hk
    have h1 := h k hk
    simp only [TMap.Contains, TMap.Find_Add] at h1 ⊢
    split
    · rfl
    · exact h1
  unfold HandleJoinTokenResponse
  split
  · exact h
  · split
    · exact h
    · dsimp only
      split
      · exact HandlesTracked_CleanUpChannelSession hadd c
      · exact hadd

theorem HandlesTracked_HandleChannelConnectCompleted {s : State} (h : HandlesTracked s)
    (c : String) (e : VivoxCoreError) (n : FDelegateHandle) :
    HandlesTracked (HandleChannelConnectCompleted s c e n).1 := by
  unfold HandleChannelConnectCompleted
  split
  · split
    · rename_i cs hfind
      intro k hk
      simp only [TMap.Contains, TMap.Find_Add] at hk ⊢
      cases hck : FString.Equals c k with
      | true =>
        rw [← TMap.Find_congr _ hck, hfind]
        rfl
      | false =>
        simp only [hck, Bool.false_eq_true, if_false] at hk
        exact h k hk
    · exact h
  · exact HandlesTracked_CleanUpChannelSession h c

/-- Every call keeps the handle map inside the channel map. -/
theorem HandlesTracked_step {s : State} (h : HandlesTracked s) (a : Action) {r : Result}
    (hr : step s a = some r) : HandlesTracked r.1 := by
  cases a with
  | VivoxLoginCompleted e n =>
    simp only [step, HandleVivoxLoginCompleted] at hr
    split at hr
    · split at hr
      · cases hr
      · simp only [Option.some.injEq] at hr; subst hr
        exact HandlesTracked_congr h rfl rfl
    · simp only [Option.some.injEq] at hr; subst hr
      exact HandlesTracked_congr h rfl rfl
  | Uninitialize =>
    simp only [step, Option.some.injEq] at hr; subst hr
    exact HandlesTracked_Uninitialize h
  | Logout =>
    simp only [step, Option.some.injEq] at hr; subst hr
    exact HandlesTracked_Logout h
  | LeaveAllChannels =>
    simp only [step, Option.some.injEq] at hr; subst hr
    exact HandlesTracked_LeaveAllChannels s
  | JoinTokenResponse c t u cfg e =>
    simp only [step, Option.some.injEq] at hr; subst hr
    exact HandlesTracked_HandleJoinTokenResponse h c t u cfg e
  | ChannelConnectCompleted c e n =>
    simp only [step, Option.some.injEq] at hr; subst hr
    exact HandlesTracked_HandleChannelConnectCompleted h c e n
  | ChannelStateChanged c st =>
    simp only [step, Option.some.injEq] at hr; subst hr
    unfold HandleChannelStateChanged
    split
    · exact HandlesTracked_CleanUpChannelSession h c
    · exact h
  | Initialize e =>
    simp only [step, Option.some.injEq] at hr; subst hr
    unfold Initialize
    repeat' split
    all_goals exact h
  | Login a u cfg =>
    simp only [step, Option.some.injEq] at hr; subst hr
    unfold Login
    repeat' split
    all_goals exact h
  | LoginTokenError =>
    simp only [step, Option.some.injEq] at hr; subst hr
    exact HandlesTracked_congr h rfl rfl
  | LoginTokenResponse t u cfg e =>
    simp only [step, Option.some.injEq] at hr; subst hr
    unfold HandleLoginTokenResponse
    split
    · exact HandlesTracked_congr h rfl rfl
    · dsimp only
      split
      · exact HandlesTracked_congr h rfl rfl
      · split
        · exact HandlesTracked_congr h rfl rfl
        · exact h
  | LoginSessionStateChanged st =>
    simp only [step, Option.some.injEq] at hr; subst hr
    unfold HandleLoginSessionStateChanged
    repeat' split
    all_goals exact h
  | JoinChannel c =>
    simp only [step, Option.some.injEq] at hr; subst hr
    unfold JoinChannel
    repeat' split
    all_goals exact h
  | JoinTokenError c =>
    simp only [step, Option.some.injEq] at hr; subst hr
    exact h
  | LeaveChannel c =>
    simp only [step, Option.some.injEq] at hr; subst hr
    unfold LeaveChannel
    repeat' split
    all_goals exact h
  | SetTransmissionChannel c =>
    simp only [step, Option.some.injEq] at hr; subst hr
    unfold SetTransmissionChannel
    repeat' split
    all_goals exact h
  | SetTransmissionToAll =>
    simp only [step, Option.some.injEq] at hr; subst hr
    unfold SetTransmissionToAll
    repeat' split
    all_goals exact h
  | SetTransmissionToNone =>
    simp only [step, Option.some.injEq] at hr; subst hr
    unfold SetTransmissionToNone
    repeat' split
    all_goals exact h
  | SetLocalMute b =>
    simp only [step, Option.some.injEq] at hr; subst hr
    unfold SetLocalMute
    repeat' split
    all_goals exact h
  | SetPlayerMute c p b f =>
    simp only [step, Option.some.injEq] at hr; subst hr
    unfold SetPlayerMute
    repeat' split
    all_goals exact h
  | ParticipantAdded c p d =>
    simp only [step, Option.some.injEq] at hr; subst hr
    exact HandlesTracked_congr h rfl rfl
  | ParticipantRemoved c p =>
    simp only [step, Option.some.injEq] at hr; subst hr
    exact HandlesTracked_congr h rfl rfl
  | ParticipantUpdated c p b =>
    simp only [step, Option.some.injEq] at hr; subst hr
    unfold HandleParticipantUpdated
    repeat' split
    all_goals exact h

/-- Every sequence of calls keeps the handle map inside the channel map. -/
theorem HandlesTracked_run {s : State} (h : HandlesTracked s) (acts : List Action)
    {r : Result} (hr : run s acts = some r) : HandlesTracked r.1 := by
  induction acts generalizing s r with
  | nil =>
    simp only [run, Option.some.injEq] at hr
    subst hr
    exact h
  | cons a rest ih =>
    simp only [run] at hr
    cases h1 : step s a with
    | none => simp [h1] at hr
    | some r1 =>
      simp only [h1] at hr
      cases h2 : run r1.1 rest with
      | none => simp [h2] at hr
      | some r2 =>
        simp only [h2, Option.some.injEq] at hr
        subst hr
        have h3 : HandlesTracked r2.1 := ih (HandlesTracked_step h a h1) h2
        exact h3

/-- In a reachable state every name with a state-changed handle has a channel
entry. -/
theorem HandlesTracked_of_Reachable {s : State} (h : Reachable s) : HandlesTracked s := by
  obtain ⟨acts, evs, hr⟩ := h
  exact HandlesTracked_run HandlesTracked_init acts hr

/-! ## Reachability of further example states -/

theorem Reachable_stateConnecting : Reachable stateConnecting :=
  ⟨loginCalls ++ [Action.JoinChannel "party-42",
      Action.JoinTokenResponse "party-42" "join-token" "uri" demoSettings 0], _, rfl⟩

theorem Reachable_stateStaleTable : Reachable stateStaleTable :=
  ⟨loginCalls ++ joinCalls "party-42" 8 ++
      [Action.LeaveAllChannels, Action.ParticipantAdded "party-42" "bob" "Bob"], _, rfl⟩


/-! ## Participant updates -/

/-- The result of `HandleParticipantUpdated` in terms of the stored flag. -/
theorem HandleParticipantUpdated_eq (s : State) (X P : String) (b : Bool) :
    HandleParticipantUpdated s X P b =
      match talkingFlag s X P with
      | none => (s, [])
      | some prev =>
        if prev ≠ b then
          ({ s with
              ParticipantTalkingState :=
                TMap.Modify s.ParticipantTalkingState X
                  (fun ps => TMap.Modify ps P (fun _ => b)) },
            [Event.OnParticipantTalkingChanged X P b])
        else (s, []) := by
  unfold HandleParticipantUpdated talkingFlag
  cases h1 : TMap.Find s.ParticipantTalkingState X with
  | none => rfl
  | some ps =>
    cases h2 : TMap.Find ps P with
    | none => simp [h2]
    | some prev => simp [h2]

/-- The flag read back after it was written through the two lookups. -/
theorem talkingFlag_written (s : State) (X P : String) (b prev : Bool)
    (h : talkingFlag s X P = some prev) :
    talkingFlag
      { s with
        ParticipantTalkingState :=
          TMap.Modify s.ParticipantTalkingState X (fun ps => TMap.Modify ps P (fun _ => b)) }
      X P = some b := by
  unfold talkingFlag at h ⊢
  simp only [TMap.Find_Modify_self]
  cases h1 : TMap.Find s.ParticipantTalkingState X with
  | none => simp [h1] at h
  | some ps =>
    simp only [h1, Option.some_bind, Option.map_some'] at h ⊢
    rw [TMap.Find_Modify_self, h]
    rfl

/-- C11: the participant-updated handler broadcasts
participant-talking-changed(X, P, b) exactly when P has a stored flag in the
talking table of X and that flag differs from b, and it broadcasts nothing else;
after the call the stored flag of a known P is b; an update for an unknown
channel or an unknown participant has no effect and changes no member (no entry
is created); an unchanged flag gives no broadcast; and from a stored flag false,
the updates true then false give exactly the two broadcasts (true), (false) in
that order. -/
theorem C11_participant_updated (s : State) (X P : String) (b : Bool) :
    (HandleParticipantUpdated s X P b).2 =
      (match talkingFlag s X P with
       | some prev => if prev ≠ b then [Event.OnParticipantTalkingChanged X P b] else []
       | none => []) ∧
    (Event.OnParticipantTalkingChanged X P b ∈ (HandleParticipantUpdated s X P b).2 ↔
      ∃ prev, talkingFlag s X P = some prev ∧ prev ≠ b) ∧
    (∀ prev, talkingFlag s X P = some prev →
      talkingFlag (HandleParticipantUpdated s X P b).1 X P = some b) ∧
    (talkingFlag s X P = none → HandleParticipantUpdated s X P b = (s, [])) ∧
    (talkingFlag s X P = some b → HandleParticipantUpdated s X P b = (s, [])) ∧
    (talkingFlag s X P = some false →
      (HandleParticipantUpdated s X P true).2 ++
        (HandleParticipantUpdated (HandleParticipantUpdated s X P true).1 X P false).2 =
      [Event.OnParticipantTalkingChanged X P true,
       Event.OnParticipantTalkingChanged X P false]) := by
  refine ⟨?_, ?_, ?_, ?_, ?_, ?_⟩
  · rw [HandleParticipantUpdated_eq]
    cases h : talkingFlag s X P with
    | none => rfl
    | some prev => by_cases hb : prev = b <;> simp [hb]
  · rw [HandleParticipantUpdated_eq]
    cases h : talkingFlag s X P with
    | none => simp
    | some prev => by_cases hb : prev = b <;> simp [hb]
  · intro prev h
    rw [HandleParticipantUpdated_eq, h]
    by_cases hb : prev = b
    · simp only [hb, ne_eq, not_true_eq_false, if_false]
      rw [h, hb]
    · simp only [ne_eq, hb, not_false_eq_true, if_true]
      exact talkingFlag_written s X P b prev h
  · intro h
    rw [HandleParticipantUpdated_eq, h]
  · intro h
    rw [HandleParticipantUpdated_eq, h]
    simp
  · intro h
    have h1 : talkingFlag (HandleParticipantUpdated s X P true).1 X P = some true := by
      rw [HandleParticipantUpdated_eq, h]
      exact talkingFlag_written s X P true false h
    rw [HandleParticipantUpdated_eq (HandleParticipantUpdated s X P true).1, h1]
    rw [HandleParticipantUpdated_eq, h]
    simp

/-- C11 for participant "bob" of "party-42", whose stored flag is false. -/
theorem C11_participant_updated_witness :
    talkingFlag stateInChannel "party-42" "bob" = some false ∧
    (HandleParticipantUpdated stateInChannel "party-42" "bob" false).2 = [] ∧
    talkingFlag (HandleParticipantUpdated stateInChannel "party-42" "bob" true).1
      "party-42" "bob" = some true ∧
    (HandleParticipantUpdated stateInChannel "party-42" "bob" true).2 ++
        (HandleParticipantUpdated
          (HandleParticipantUpdated stateInChannel "party-42" "bob" true).1
          "party-42" "bob" false).2 =
      [Event.OnParticipantTalkingChanged "party-42" "bob" true,
       Event.OnParticipantTalkingChanged "party-42" "bob" false] :=
  ⟨by decide,
    (C11_participant_updated stateInChannel "party-42" "bob" false).1,
    (C11_participant_updated stateInChannel "party-42" "bob" true).2.2.1 false (by decide),
    (C11_participant_updated stateInChannel "party-42" "bob" true).2.2.2.2.2 (by decide)⟩

/-! ## Leaving one channel -/

/-- C12: `LeaveChannel X` broadcasts nothing and changes no member, so
`IsInChannel X` answers after the call what it answered before; its only
possible effect is one disconnect, made exactly when the channel map holds a
non-null session under X. -/
theorem C12_LeaveChannel_frame (s : State) (X : String) :
    (LeaveChannel s X).1 = s ∧
    notifications (LeaveChannel s X).2 = [] ∧
    IsInChannel (LeaveChannel s X).1 X = IsInChannel s X ∧
    (LeaveChannel s X).2 =
      (match TMap.Find s.ChannelSessions X with
       | some (some c) => [Event.Disconnect c]
       | _ => []) ∧
    (disconnects (LeaveChannel s X).2 ≠ [] ↔
      ∃ c, TMap.Find s.ChannelSessions X = some (some c)) := by
  unfold LeaveChannel
  cases h : TMap.Find s.ChannelSessions X with
  | none => simp [notifications, disconnects]
  | some v =>
    cases v with
    | none => simp [notifications, disconnects]
    | some c => simp [notifications, disconnects, Event.isNotification, Event.isDisconnect]


/-! ## Leaving all channels -/

/-- C13, as stated, fails in its zero-channel part: in the reachable state
`stateStaleTable` the channel map is empty, yet `LeaveAllChannels` changes the
state, because it drops the talking table that a late participant-added event
left for "party-42". -/
theorem C13_zero_channels_drops_stale_table :
    stateStaleTable.ChannelSessions = [] ∧
    (LeaveAllChannels stateStaleTable).1.ParticipantTalkingState = [] ∧
    stateStaleTable.ParticipantTalkingState = [("party-42", [("bob", false)])] ∧
    ¬ ((LeaveAllChannels stateStaleTable).1 = stateStaleTable) := by
  decide

/-- C13, amended: in every reachable state `LeaveAllChannels` makes exactly one
disconnect per channel entry present before the call (that of its session, in
iteration order) and has no other effect, leaves the channel map, the handle
map and the participant talking tables empty and every other member (the login
state among them) as it was, and broadcasts nothing; called with an empty
channel map it makes no disconnect and changes nothing but the participant
talking tables, which it empties (so it changes nothing when they are empty);
and a second call right after the first changes nothing and has no effect. -/
theorem C13_LeaveAllChannels (s : State) (hr : Reachable s) :
    (LeaveAllChannels s).2 = s.ChannelSessions.filterMap (fun p => p.2.map Event.Disconnect) ∧
    (LeaveAllChannels s).2.length = s.ChannelSessions.length ∧
    (LeaveAllChannels s).1 =
      { s with
        ChannelSessions := []
        ChannelStateChangedHandles := []
        ParticipantTalkingState := [] } ∧
    notifications (LeaveAllChannels s).2 = [] ∧
    (LeaveAllChannels s).1.CurrentLoginState = s.CurrentLoginState ∧
    (s.ChannelSessions = [] →
      LeaveAllChannels s = ({ s with ParticipantTalkingState := [] }, [])) ∧
    (s.ChannelSessions = [] → s.ParticipantTalkingState = [] → LeaveAllChannels s = (s, [])) ∧
    LeaveAllChannels (LeaveAllChannels s).1 = ((LeaveAllChannels s).1, []) := by
  have wf := WellFormed_of_Reachable hr
  have ht := HandlesTracked_of_Reachable hr
  have hev := LeaveAllChannels_events wf
  have hzero : s.ChannelSessions = [] → s.ChannelStateChangedHandles = [] := by
    intro hc
    cases hh : s.ChannelStateChangedHandles with
    | nil => rfl
    | cons p rest =>
      have h1 := ht p.1 (by simp [hh, TMap.Contains, TMap.Find, FString.Equals_refl])
      simp [hc, TMap.Contains, TMap.Find] at h1
  refine ⟨hev, ?_, rfl, ?_, rfl, ?_, ?_, ?_⟩
  · rw [hev]
    exact length_sessions _ wf.3
  · rw [hev]
    exact notifications_sessions _
  · intro hc
    have hh := hzero hc
    apply Prod.ext
    · show (LeaveAllChannels s).1 = _
      obtain ⟨a1, a2, a3, a4, a5, a6, a7, a8, a9, a10, a11⟩ := s
      simp only at hc hh
      subst hc hh
      rfl
    · show (LeaveAllChannels s).2 = []
      rw [hev, hc]
      rfl
  · intro hc hp
    have hh := hzero hc
    apply Prod.ext
    · show (LeaveAllChannels s).1 = s
      obtain ⟨a1, a2, a3, a4, a5, a6, a7, a8, a9, a10, a11⟩ := s
      simp only at hc hh hp
      subst hc hh hp
      rfl
    · show (LeaveAllChannels s).2 = []
      rw [hev, hc]
      rfl
  · rfl

/-- C13, amended, in the state where "alice" is connected to "party-42" and
"squad-7". -/
theorem C13_LeaveAllChannels_witness :
    Reachable stateTwoChannels ∧
    (LeaveAllChannels stateTwoChannels).2 =
      [Event.Disconnect ⟨"issuer", "party-42", "vivox.example"⟩,
       Event.Disconnect ⟨"issuer", "squad-7", "vivox.example"⟩] ∧
    notifications (LeaveAllChannels stateTwoChannels).2 = [] ∧
    LeaveAllChannels (LeaveAllChannels stateTwoChannels).1 =
      ((LeaveAllChannels stateTwoChannels).1, []) ∧
    (Reachable stateLoggedIn ∧ stateLoggedIn.ChannelSessions = [] ∧
      stateLoggedIn.ParticipantTalkingState = []) ∧
    LeaveAllChannels stateLoggedIn = (stateLoggedIn, []) :=
  ⟨Reachable_stateTwoChannels,
    (C13_LeaveAllChannels stateTwoChannels Reachable_stateTwoChannels).1,
    (C13_LeaveAllChannels stateTwoChannels Reachable_stateTwoChannels).2.2.2.1,
    (C13_LeaveAllChannels stateTwoChannels Reachable_stateTwoChannels).2.2.2.2.2.2.2,
    ⟨Reachable_stateLoggedIn, rfl, rfl⟩,
    (C13_LeaveAllChannels stateLoggedIn Reachable_stateLoggedIn).2.2.2.2.2.2.1 rfl rfl⟩

/-! ## Transmission routing while not logged in -/

/-- C14, as stated, fails: in the state an accepted `Login` leaves (`LoggingIn`)
and in the state a failed token request then leaves (`NotLoggedIn`), the login
session pointer is not null and `SetTransmissionToAll` and
`SetTransmissionToNone` forward their mode to it. -/
theorem C14_mode_forwarded_while_not_logged_in :
    stateLoggingIn.CurrentLoginState = .LoggingIn ∧
    (SetTransmissionToAll stateLoggingIn).2 = [Event.SetTransmissionMode .All none] ∧
    (Login_OnError stateLoggingIn).1.CurrentLoginState = .NotLoggedIn ∧
    (SetTransmissionToNone (Login_OnError stateLoggingIn).1).2 =
      [Event.SetTransmissionMode .None none] ∧
    ¬ ((SetTransmissionToAll stateLoggingIn).2 = []) := by
  decide

/-- C14, amended: in every state whose login session pointer is null the three
operations forward no transmission mode and change no member; in every state
they change no member; `SetTransmissionChannel X` forwards nothing when X has
no entry in the channel map; and a reachable state whose login session pointer
is null is not `LoggedIn`. -/
theorem C14_transmission_guards (s : State) (X : String) :
    (s.VivoxLoginSession = none →
      SetTransmissionChannel s X = (s, []) ∧ SetTransmissionToAll s = (s, []) ∧
      SetTransmissionToNone s = (s, [])) ∧
    ((SetTransmissionChannel s X).1 = s ∧ (SetTransmissionToAll s).1 = s ∧
      (SetTransmissionToNone s).1 = s) ∧
    (TMap.Contains s.ChannelSessions X = false → SetTransmissionChannel s X = (s, [])) ∧
    (Reachable s → s.VivoxLoginSession = none → s.CurrentLoginState ≠ .LoggedIn) := by
  refine ⟨?_, ⟨?_, ?_, ?_⟩, ?_, ?_⟩
  · intro h
    simp [SetTransmissionChannel, SetTransmissionToAll, SetTransmissionToNone, h]
  · unfold SetTransmissionChannel
    split
    · rfl
    · split <;> rfl
  · unfold SetTransmissionToAll
    split <;> rfl
  · unfold SetTransmissionToNone
    split <;> rfl
  · intro h
    have hf : TMap.Find s.ChannelSessions X = none := by
      simpa [TMap.Contains] using h
    unfold SetTransmissionChannel
    split
    · rfl
    · simp [hf]
  · intro hr h hl
    have h1 := (WellFormed_of_Reachable hr).1 hl
    simp [h] at h1

/-- C14, amended, in the state `Logout` leaves and in the logged-in state with
no channel. -/
theorem C14_transmission_guards_witness :
    (Logout stateInChannel).1.VivoxLoginSession = none ∧
    SetTransmissionToAll (Logout stateInChannel).1 = ((Logout stateInChannel).1, []) ∧
    TMap.Contains stateLoggedIn.ChannelSessions "party-42" = false ∧
    SetTransmissionChannel stateLoggedIn "party-42" = (stateLoggedIn, []) :=
  ⟨by decide,
    ((C14_transmission_guards (Logout stateInChannel).1 "party-42").1 (by decide)).2.1,
    by decide,
    (C14_transmission_guards stateLoggedIn "party-42").2.2.1 (by decide)⟩


/-! ## Failed joins -/

theorem HasNoEntry_CleanUpChannelSession (s : State) (X : String) :
    HasNoEntry (CleanUpChannelSession s X).1 X := by
  rw [CleanUpChannelSession_state]
  exact ⟨TMap.Contains_Remove_self _ _, TMap.Contains_Remove_self _ _,
    TMap.Contains_Remove_self _ _⟩

/-- A failing `HandleJoinTokenResponse` (null session, empty address, or
`BeginConnect` returning an error) leaves no entry for the name, given there was
none, and broadcasts channel-joined(X, false) once. -/
theorem HandleJoinTokenResponse_failure (s : State) (X t u : String)
    (cfg : UAccelByteVivoxSettings) (e : VivoxCoreError) (hno : HasNoEntry s X)
    (hf : s.VivoxLoginSession = none ∨ FString.IsEmpty u = true ∨ e ≠ VxErrorSuccess) :
    HasNoEntry (HandleJoinTokenResponse s X t u cfg e).1 X ∧
    notifications (HandleJoinTokenResponse s X t u cfg e).2 = [Event.OnChannelJoined X false] := by
  unfold HandleJoinTokenResponse
  split
  · exact ⟨hno, rfl⟩
  · rename_i sess hsess
    split
    · exact ⟨hno, rfl⟩
    · rename_i hempty
      have he : e ≠ VxErrorSuccess := by
        rcases hf with h | h | h
        · rw [hsess] at h; cases h
        · exact absurd h hempty
        · exact h
      dsimp only
      rw [if_pos he]
      refine ⟨HasNoEntry_CleanUpChannelSession _ X, ?_⟩
      have h1 := notifications_CleanUpChannelSession
        { s with ChannelSessions :=
            (TMap.Add s.ChannelSessions X (some ⟨cfg.VivoxIssuer, X, cfg.VivoxDomain⟩)) } X
      simp only [notifications] at h1
      simp only [notifications, List.filter_append, h1]
      rfl

/-- A connect completion with an error leaves no entry for the name and
broadcasts channel-joined(X, false) once. -/
theorem HandleChannelConnectCompleted_failure (s : State) (X : String) (e : VivoxCoreError)
    (n : FDelegateHandle) (he : e ≠ VxErrorSuccess) :
    HasNoEntry (HandleChannelConnectCompleted s X e n).1 X ∧
    notifications (HandleChannelConnectCompleted s X e n).2 = [Event.OnChannelJoined X false] := by
  unfold HandleChannelConnectCompleted
  rw [if_neg he]
  refine ⟨HasNoEntry_CleanUpChannelSession s X, ?_⟩
  have h1 := notifications_CleanUpChannelSession s X
  simp only [notifications] at h1
  simp only [notifications, List.filter_append, h1]
  rfl

/-- An accepted token response: the entry is inserted, connect is begun, and
nothing is broadcast. -/
theorem HandleJoinTokenResponse_success (s : State) (X t u : String)
    (cfg : UAccelByteVivoxSettings) {sess : AccountId} (hs : s.VivoxLoginSession = some sess)
    (hu : FString.IsEmpty u = false) :
    HandleJoinTokenResponse s X t u cfg VxErrorSuccess =
      ({ s with ChannelSessions :=
          (TMap.Add s.ChannelSessions X (some ⟨cfg.VivoxIssuer, X, cfg.VivoxDomain⟩)) },
        [Event.GetChannelSession ⟨cfg.VivoxIssuer, X, cfg.VivoxDomain⟩,
         Event.ParticipantEventsAdd ⟨cfg.VivoxIssuer, X, cfg.VivoxDomain⟩,
         Event.BeginConnect ⟨cfg.VivoxIssuer, X, cfg.VivoxDomain⟩ t]) := by
  unfold HandleJoinTokenResponse
  simp [hs, hu]

/-- C15: from a reachable logged-in state with no entry for X in the channel
map and no talking table for X, every failed join of X ends with no entry for X
in the channel map, the handle map or the participant talking tables, and the
calls of the join broadcast channel-joined(X, false) once and nothing else: the
token request failing; the token response handler failing (empty address, or
`BeginConnect` returning an error); the connect completing with an error. -/
theorem C15_failed_join (s : State) (X : String) (hr : Reachable s)
    (hl : s.CurrentLoginState = .LoggedIn)
    (hc : TMap.Contains s.ChannelSessions X = false)
    (ht : TMap.Contains s.ParticipantTalkingState X = false) :
    (∃ r, run s [Action.JoinChannel X, Action.JoinTokenError X] = some r ∧
      HasNoEntry r.1 X ∧ notifications r.2 = [Event.OnChannelJoined X false]) ∧
    (∀ (t u : String) (cfg : UAccelByteVivoxSettings) (e : VivoxCoreError),
      (FString.IsEmpty u = true ∨ e ≠ VxErrorSuccess) →
      ∃ r, run s [Action.JoinChannel X, Action.JoinTokenResponse X t u cfg e] = some r ∧
        HasNoEntry r.1 X ∧ notifications r.2 = [Event.OnChannelJoined X false]) ∧
    (∀ (t u : String) (cfg : UAccelByteVivoxSettings) (e : VivoxCoreError)
      (n : FDelegateHandle), FString.IsEmpty u = false → e ≠ VxErrorSuccess →
      ∃ r, run s [Action.JoinChannel X, Action.JoinTokenResponse X t u cfg VxErrorSuccess,
          Action.ChannelConnectCompleted X e n] = some r ∧
        HasNoEntry r.1 X ∧ notifications r.2 = [Event.OnChannelJoined X false]) := by
  have wf := WellFormed_of_Reachable hr
  have hno : HasNoEntry s X := by
    refine ⟨hc, ?_, ht⟩
    cases hh : TMap.Contains s.ChannelStateChangedHandles X with
    | false => rfl
    | true =>
      have h1 := HandlesTracked_of_Reachable hr X hh
      rw [hc] at h1
      cases h1
  obtain ⟨sess, hsess⟩ := Option.isSome_iff_exists.mp (wf.1 hl)
  obtain ⟨api, hapi⟩ := Option.isSome_iff_exists.mp (wf.2 (wf.1 hl))
  have hj : JoinChannel s X =
      (s, [Event.ServiceGenerateVivoxToken ⟨.join, s.Username, X, .nonpositional⟩]) := by
    simp [JoinChannel, hl, hc, hapi]
  refine ⟨?_, ?_, ?_⟩
  · refine ⟨(s, [Event.ServiceGenerateVivoxToken ⟨.join, s.Username, X, .nonpositional⟩,
        Event.OnChannelJoined X false]), ?_, hno, rfl⟩
    simp [run, step, hj, JoinChannel_OnError]
  · intro t u cfg e hf
    have h1 := HandleJoinTokenResponse_failure s X t u cfg e hno (Or.inr hf)
    refine ⟨((HandleJoinTokenResponse s X t u cfg e).1,
      Event.ServiceGenerateVivoxToken ⟨.join, s.Username, X, .nonpositional⟩ ::
        (HandleJoinTokenResponse s X t u cfg e).2), ?_, h1.1, ?_⟩
    · simp [run, step, hj]
    · have h2 := h1.2
      simp only [notifications] at h2
      simp [notifications, List.filter_cons, Event.isNotification, h2]
  · intro t u cfg e n hu he
    have h0 := HandleJoinTokenResponse_success s X t u cfg hsess hu
    have h1 := HandleChannelConnectCompleted_failure
      (HandleJoinTokenResponse s X t u cfg VxErrorSuccess).1 X e n he
    refine ⟨((HandleChannelConnectCompleted
        (HandleJoinTokenResponse s X t u cfg VxErrorSuccess).1 X e n).1,
      Event.ServiceGenerateVivoxToken ⟨.join, s.Username, X, .nonpositional⟩ ::
        ((HandleJoinTokenResponse s X t u cfg VxErrorSuccess).2 ++
          (HandleChannelConnectCompleted
            (HandleJoinTokenResponse s X t u cfg VxErrorSuccess).1 X e n).2)), ?_, h1.1, ?_⟩
    · simp [run, step, hj]
    · have h2 := h1.2
      simp only [notifications] at h2
      simp only [notifications, List.filter_cons, List.filter_append, h2]
      rw [h0]
      simp [Event.isNotification]

/-- C15 for a join of "party-42" by "alice", with error code 5. -/
theorem C15_failed_join_witness :
    (Reachable stateLoggedIn ∧ stateLoggedIn.CurrentLoginState = .LoggedIn ∧
      TMap.Contains stateLoggedIn.ChannelSessions "party-42" = false ∧
      TMap.Contains stateLoggedIn.ParticipantTalkingState "party-42" = false) ∧
    (∃ r, run stateLoggedIn [Action.JoinChannel "party-42", Action.JoinTokenError "party-42"]
        = some r ∧
      HasNoEntry r.1 "party-42" ∧ notifications r.2 = [Event.OnChannelJoined "party-42" false]) ∧
    (∃ r, run stateLoggedIn [Action.JoinChannel "party-42",
          Action.JoinTokenResponse "party-42" "join-token" "uri" demoSettings 5] = some r ∧
      HasNoEntry r.1 "party-42" ∧ notifications r.2 = [Event.OnChannelJoined "party-42" false]) ∧
    (∃ r, run stateLoggedIn [Action.JoinChannel "party-42",
          Action.JoinTokenResponse "party-42" "join-token" "uri" demoSettings VxErrorSuccess,
          Action.ChannelConnectCompleted "party-42" 5 ⟨8⟩] = some r ∧
      HasNoEntry r.1 "party-42" ∧ notifications r.2 = [Event.OnChannelJoined "party-42" false]) :=
  ⟨⟨Reachable_stateLoggedIn, by decide, by decide, by decide⟩,
    (C15_failed_join stateLoggedIn "party-42" Reachable_stateLoggedIn
      (by decide) (by decide) (by decide)).1,
    (C15_failed_join stateLoggedIn "party-42" Reachable_stateLoggedIn
      (by decide) (by decide) (by decide)).2.1 "join-token" "uri" demoSettings 5
      (Or.inr (by decide)),
    (C15_failed_join stateLoggedIn "party-42" Reachable_stateLoggedIn
      (by decide) (by decide) (by decide)).2.2 "join-token" "uri" demoSettings 5 ⟨8⟩
      (by decide) (by decide)⟩


/-! ## Joining a channel that is still connecting -/

/-- C16, as stated, fails: in the reachable state `stateConnecting` "alice" is
logged in, "party-42" has its entry, the connect completion has not been
delivered (no state-changed handle is registered), and `JoinChannel "party-42"`
broadcasts channel-joined("party-42", true). -/
theorem C16_success_reported_while_connecting :
    stateConnecting.CurrentLoginState = .LoggedIn ∧
    TMap.Contains stateConnecting.ChannelSessions "party-42" = true ∧
    TMap.Contains stateConnecting.ChannelStateChangedHandles "party-42" = false ∧
    Event.OnChannelJoined "party-42" true ∈ (JoinChannel stateConnecting "party-42").2 := by
  decide

/-- C16, amended: `JoinChannel X` reports success for every channel that has an
entry in the channel map, connected or not: in a logged-in state where the
entry of X exists and the connect completion has not been delivered,
`JoinChannel X` broadcasts channel-joined(X, true) as its only effect and
changes no member. -/
theorem C16_JoinChannel_while_connecting (s : State) (X : String)
    (hl : s.CurrentLoginState = .LoggedIn)
    (hentry : TMap.Contains s.ChannelSessions X = true)
    (_hconnecting : TMap.Contains s.ChannelStateChangedHandles X = false) :
    JoinChannel s X = (s, [Event.OnChannelJoined X true]) ∧
    notifications (JoinChannel s X).2 = [Event.OnChannelJoined X true] ∧
    tokenRequests (JoinChannel s X).2 = [] := by
  have hj : JoinChannel s X = (s, [Event.OnChannelJoined X true]) := by
    simp [JoinChannel, hl, hentry]
  rw [hj]
  exact ⟨rfl, rfl, rfl⟩

/-- C16, amended, in the state where the connect of "party-42" is pending. -/
theorem C16_JoinChannel_while_connecting_witness :
    (stateConnecting.CurrentLoginState = .LoggedIn ∧
      TMap.Contains stateConnecting.ChannelSessions "party-42" = true ∧
      TMap.Contains stateConnecting.ChannelStateChangedHandles "party-42" = false) ∧
    JoinChannel stateConnecting "party-42" =
      (stateConnecting, [Event.OnChannelJoined "party-42" true]) :=
  ⟨by decide,
    (C16_JoinChannel_while_connecting stateConnecting "party-42"
      (by decide) (by decide) (by decide)).1⟩

/-! ## Completions delivered after the channel was cleared -/

/-- C17, as stated, fails: after `JoinChannel "party-42"` and `Logout` there is
no entry for "party-42", and the token response delivered then broadcasts
channel-joined("party-42", false); after `JoinChannel "party-42"` and
`LeaveAllChannels` there is no entry either, and the token response delivered
then inserts one. -/
theorem C17_late_completions_not_discarded :
    (run State.init joinThenLogoutCalls).map
        (fun r => (TMap.Contains r.1.ChannelSessions "party-42",
          notifications
            (HandleJoinTokenResponse r.1 "party-42" "join-token" "uri" demoSettings 0).2)) =
      some (false, [Event.OnChannelJoined "party-42" false]) ∧
    (run State.init joinThenLeaveAllCalls).map
        (fun r => (TMap.Contains r.1.ChannelSessions "party-42",
          TMap.Contains
            (HandleJoinTokenResponse r.1 "party-42" "join-token" "uri"
              demoSettings 0).1.ChannelSessions "party-42")) =
      some (false, true) := by
  decide

/-- C17, amended: when X has no entry in the channel map, a join token response
for X delivered while the login session pointer is null (as `Logout` leaves it)
changes no member and broadcasts channel-joined(X, false) once; a connect
completion for X leaves the channel map without an entry for X and broadcasts
channel-joined(X, b) once, b being true for a successful completion (which
changes no member) and false for a failed one; and a join token response for X
delivered while the login session exists, with a non-empty address and
`BeginConnect` accepted, inserts the entry for X and broadcasts nothing, as for
a fresh join. -/
theorem C17_late_completions (s : State) (X : String)
    (hno : TMap.Contains s.ChannelSessions X = false) :
    (∀ (t u : String) (cfg : UAccelByteVivoxSettings) (e : VivoxCoreError),
      s.VivoxLoginSession = none →
      HandleJoinTokenResponse s X t u cfg e = (s, [Event.OnChannelJoined X false])) ∧
    (∀ n : FDelegateHandle,
      HandleChannelConnectCompleted s X VxErrorSuccess n =
        (s, [Event.OnChannelJoined X true])) ∧
    (∀ (e : VivoxCoreError) (n : FDelegateHandle), e ≠ VxErrorSuccess →
      TMap.Contains (HandleChannelConnectCompleted s X e n).1.ChannelSessions X = false ∧
      notifications (HandleChannelConnectCompleted s X e n).2 =
        [Event.OnChannelJoined X false]) ∧
    (∀ (t u : String) (cfg : UAccelByteVivoxSettings), s.VivoxLoginSession ≠ none →
      FString.IsEmpty u = false →
      TMap.Contains (HandleJoinTokenResponse s X t u cfg VxErrorSuccess).1.ChannelSessions X
        = true ∧
      notifications (HandleJoinTokenResponse s X t u cfg VxErrorSuccess).2 = []) := by
  have hf : TMap.Find s.ChannelSessions X = none := by
    simpa [TMap.Contains] using hno
  refine ⟨?_, ?_, ?_, ?_⟩
  · intro t u cfg e hs
    simp [HandleJoinTokenResponse, hs]
  · intro n
    simp [HandleChannelConnectCompleted, hf]
  · intro e n he
    have h1 := HandleChannelConnectCompleted_failure s X e n he
    exact ⟨h1.1.1, h1.2⟩
  · intro t u cfg hs hu
    obtain ⟨sess, hsess⟩ := Option.ne_none_iff_exists'.mp hs
    rw [HandleJoinTokenResponse_success s X t u cfg hsess hu]
    constructor
    · simp [TMap.Contains, TMap.Find_Add, FString.Equals_refl]
    · rfl

/-- C17, amended, for "party-42" after `Logout` and after `LeaveAllChannels`. -/
theorem C17_late_completions_witness :
    (TMap.Contains (Logout stateConnecting).1.ChannelSessions "party-42" = false ∧
      (Logout stateConnecting).1.VivoxLoginSession = none) ∧
    HandleJoinTokenResponse (Logout stateConnecting).1 "party-42" "join-token" "uri"
        demoSettings 0 =
      ((Logout stateConnecting).1, [Event.OnChannelJoined "party-42" false]) ∧
    (TMap.Contains (LeaveAllChannels stateConnecting).1.ChannelSessions "party-42" = false) ∧
    HandleChannelConnectCompleted (LeaveAllChannels stateConnecting).1 "party-42"
        VxErrorSuccess ⟨8⟩ =
      ((LeaveAllChannels stateConnecting).1, [Event.OnChannelJoined "party-42" true]) ∧
    notifications (HandleChannelConnectCompleted (LeaveAllChannels stateConnecting).1
        "party-42" 5 ⟨8⟩).2 = [Event.OnChannelJoined "party-42" false] :=
  ⟨by decide,
    (C17_late_completions (Logout stateConnecting).1 "party-42" (by decide)).1
      "join-token" "uri" demoSettings 0 (by decide),
    by decide,
    (C17_late_completions (LeaveAllChannels stateConnecting).1 "party-42" (by decide)).2.1 ⟨8⟩,
    ((C17_late_completions (LeaveAllChannels stateConnecting).1 "party-42"
      (by decide)).2.2.1 5 ⟨8⟩ (by decide)).2⟩

/-! ## Cleanup is idempotent -/

/-- C18: `CleanUpChannelSession X` applied twice leaves the state one
application leaves, and the second application has no effect; that state has no
entry for X in the channel map, the handle map or the participant talking
tables; it only removes X from the three maps, so what each map holds under a
name not equal to X is what it held before, and every other member is as it
was; nothing is broadcast; and when X is in none of the maps the state is
unchanged.  Names are equal as `FString` values, that is up to case. -/
theorem C18_CleanUpChannelSession_idempotent (s : State) (X : String) :
    (CleanUpChannelSession (CleanUpChannelSession s X).1 X).1 = (CleanUpChannelSession s X).1 ∧
    (CleanUpChannelSession (CleanUpChannelSession s X).1 X).2 = [] ∧
    HasNoEntry (CleanUpChannelSession s X).1 X ∧
    (CleanUpChannelSession s X).1 =
      { s with
        ChannelStateChangedHandles := TMap.Remove s.ChannelStateChangedHandles X
        ChannelSessions := TMap.Remove s.ChannelSessions X
        ParticipantTalkingState := TMap.Remove s.ParticipantTalkingState X } ∧
    (∀ k : String, FString.Equals k X = false →
      TMap.Find (CleanUpChannelSession s X).1.ChannelSessions k = TMap.Find s.ChannelSessions k ∧
      TMap.Find (CleanUpChannelSession s X).1.ChannelStateChangedHandles k =
        TMap.Find s.ChannelStateChangedHandles k ∧
      TMap.Find (CleanUpChannelSession s X).1.ParticipantTalkingState k =
        TMap.Find s.ParticipantTalkingState k) ∧
    notifications (CleanUpChannelSession s X).2 = [] ∧
    (HasNoEntry s X → CleanUpChannelSession s X = (s, [])) := by
  have hstate := CleanUpChannelSession_state s X
  have hunchanged : ∀ t : State, HasNoEntry t X → CleanUpChannelSession t X = (t, []) := by
    intro t hno
    obtain ⟨h1, h2, h3⟩ := hno
    have f1 : TMap.Find t.ChannelSessions X = none := by simpa [TMap.Contains] using h1
    have f2 : TMap.Find t.ChannelStateChangedHandles X = none := by
      simpa [TMap.Contains] using h2
    have f3 : TMap.Find t.ParticipantTalkingState X = none := by
      simpa [TMap.Contains] using h3
    apply Prod.ext
    · show (CleanUpChannelSession t X).1 = t
      rw [CleanUpChannelSession_state, TMap.Remove_of_Find_none _ f1,
        TMap.Remove_of_Find_none _ f2, TMap.Remove_of_Find_none _ f3]
    · show (CleanUpChannelSession t X).2 = []
      simp [CleanUpChannelSession, f1, f2]
  have hno := HasNoEntry_CleanUpChannelSession s X
  have htwice := hunchanged (CleanUpChannelSession s X).1 hno
  refine ⟨by rw [htwice], by rw [htwice], hno, hstate, ?_,
    notifications_CleanUpChannelSession s X, hunchanged s⟩
  intro k hk
  rw [hstate]
  exact ⟨TMap.Find_Remove_of_ne _ hk, TMap.Find_Remove_of_ne _ hk, TMap.Find_Remove_of_ne _ hk⟩

/-- C18 for "party-42" in the state with two channels: "squad-7" keeps its
entry. -/
theorem C18_CleanUpChannelSession_idempotent_witness :
    FString.Equals "squad-7" "party-42" = false ∧
    TMap.Find (CleanUpChannelSession stateTwoChannels "party-42").1.ChannelSessions "squad-7" =
      TMap.Find stateTwoChannels.ChannelSessions "squad-7" ∧
    HasNoEntry stateLoggedIn "party-42" ∧
    CleanUpChannelSession stateLoggedIn "party-42" = (stateLoggedIn, []) :=
  ⟨by decide,
    ((C18_CleanUpChannelSession_idempotent stateTwoChannels "party-42").2.2.2.2.1
      "squad-7" (by decide)).1,
    ⟨by decide, by decide, by decide⟩,
    (C18_CleanUpChannelSession_idempotent stateLoggedIn "party-42").2.2.2.2.2.2
      ⟨by decide, by decide, by decide⟩⟩

/-! ## A participant removed -/

/-- C19, as stated, fails: in the logged-in state with no channel and no talking
table, the participant-removed handler for "bob" of "party-42" changes no
member but broadcasts participant-removed("party-42", "bob"). -/
theorem C19_removed_broadcast_without_table :
    TMap.Contains stateLoggedIn.ParticipantTalkingState "party-42" = false ∧
    TMap.Contains stateLoggedIn.ChannelSessions "party-42" = false ∧
    HandleParticipantRemoved stateLoggedIn "party-42" "bob" =
      (stateLoggedIn, [Event.OnParticipantRemoved "party-42" "bob"]) ∧
    ¬ (notifications (HandleParticipantRemoved stateLoggedIn "party-42" "bob").2 = []) := by
  decide

/-- C19, amended: when X has no talking table, the participant-removed handler
changes no member and still broadcasts participant-removed(X, id) once; when the
table of X exists, the handler erases the participant from it (the table stays,
without the participant) and broadcasts participant-removed(X, id) once, as its
only effect. -/
theorem C19_participant_removed (s : State) (X P : String) :
    (TMap.Contains s.ParticipantTalkingState X = false →
      HandleParticipantRemoved s X P = (s, [Event.OnParticipantRemoved X P])) ∧
    (∀ ps : TMap Bool, TMap.Find s.ParticipantTalkingState X = some ps →
      TMap.Find (HandleParticipantRemoved s X P).1.ParticipantTalkingState X =
        some (TMap.Remove ps P) ∧
      talkingFlag (HandleParticipantRemoved s X P).1 X P = none) ∧
    (HandleParticipantRemoved s X P).2 = [Event.OnParticipantRemoved X P] := by
  refine ⟨?_, ?_, rfl⟩
  · intro h
    unfold HandleParticipantRemoved
    simp only [h, Bool.false_eq_true, if_false]
  · intro ps hps
    have hc : TMap.Contains s.ParticipantTalkingState X = true := by
      simp [TMap.Contains, hps]
    have h1 : TMap.Find (HandleParticipantRemoved s X P).1.ParticipantTalkingState X =
        some (TMap.Remove ps P) := by
      unfold HandleParticipantRemoved
      simp only [hc, if_true]
      rw [TMap.Find_Modify_self, hps]
      rfl
    refine ⟨h1, ?_⟩
    unfold talkingFlag
    rw [h1]
    exact TMap.Find_Remove_self ps P

/-- C19, amended, for participant "bob" of "party-42". -/
theorem C19_participant_removed_witness :
    TMap.Contains stateLoggedIn.ParticipantTalkingState "party-42" = false ∧
    HandleParticipantRemoved stateLoggedIn "party-42" "bob" =
      (stateLoggedIn, [Event.OnParticipantRemoved "party-42" "bob"]) ∧
    TMap.Find stateInChannel.ParticipantTalkingState "party-42" = some [("bob", false)] ∧
    talkingFlag (HandleParticipantRemoved stateInChannel "party-42" "bob").1 "party-42" "bob"
      = none :=
  ⟨by decide,
    (C19_participant_removed stateLoggedIn "party-42" "bob").1 (by decide),
    by decide,
    ((C19_participant_removed stateInChannel "party-42" "bob").2.1 [("bob", false)]
      (by decide)).2⟩

end AccelByteVivox
